import Mathlib

/-!
Shallow embedding of the catalog caching layer of `XtreamCodesApi`
(src: the Xtream Codes API access object with its VOD/series cache).

Modelling conventions:
* The JavaScript object's mutable fields become an explicit `ApiState`
  record threaded through each method.
* `AsyncStorage` becomes an association list from string keys to `Blob`s;
  `JSON.stringify`/`JSON.parse` of a cache object become the `Blob`
  constructors and the `parse*Blob` functions (a `garbage` blob models a
  string that `JSON.parse` rejects).  Failures of the store (a rejected
  `getItem`/`setItem`/`removeItem` promise) are driven by a `StoreFx`
  oracle.
* `axios` requests become a `Net` oracle returning `Except`; the list of
  `NetCall`s made during an operation is returned alongside the result, so
  "invokes the Remote Catalog Service Client" is observable.
* `Date.now()` becomes an explicit `now : Nat` (epoch milliseconds);
  numeric payload fields that the core never computes with are modelled
  as `Int`/`String` following the TypeScript interfaces.
-/

/-- Storage keys (constants from the source). -/
def AUTH_STORAGE_KEY : String := "huluxtream_auth"

def VOD_CACHE_KEY : String := "huluxtream_vod_cache"

def VOD_CATEGORIES_CACHE_KEY : String := "huluxtream_vod_categories_cache"

def SERIES_CACHE_KEY : String := "huluxtream_series_cache"

def SERIES_CATEGORIES_CACHE_KEY : String := "huluxtream_series_categories_cache"

/-- The constant `CACHE_EXPIRY_TIME = 24 * 60 * 60 * 1000` — 24 hours in milliseconds. -/
def CACHE_EXPIRY_TIME : Nat := 24 * 60 * 60 * 1000

structure XtreamCredentials where
  username : String
  password : String
  serverUrl : String
deriving DecidableEq, Repr

structure UserInfo where
  username : String
  password : String
  message : String
  auth : Int
  status : String
  exp_date : String
  is_trial : String
  active_cons : String
  created_at : String
  max_connections : String
  allowed_output_formats : List String
deriving DecidableEq, Repr

structure ServerInfo where
  url : String
  port : String
  https_port : String
  server_protocol : String
  rtmp_port : String
  timezone : String
  timestamp_now : Int
  time_now : String
deriving DecidableEq, Repr

structure AuthResponse where
  user_info : UserInfo
  server_info : ServerInfo
deriving DecidableEq, Repr

/-- The `category_type` tag added by the client: `'live' | 'movie' | 'series'`. -/
inductive CategoryType where
  | live
  | movie
  | seriesKind
deriving DecidableEq, Repr

structure Category where
  category_id : String
  category_name : String
  parent_id : Int
  category_type : Option CategoryType
deriving DecidableEq, Repr

structure Channel where
  num : Int
  name : String
  stream_type : String
  stream_id : Int
  stream_icon : String
  epg_channel_id : String
  added : String
  category_id : String
  custom_sid : String
  tv_archive : Int
  direct_source : String
  tv_archive_duration : Int
deriving DecidableEq, Repr

structure Movie where
  num : Int
  name : String
  stream_type : String
  stream_id : Int
  stream_icon : String
  added : String
  category_id : String
  container_extension : String
  custom_sid : String
  direct_source : String
deriving DecidableEq, Repr

structure Series where
  series_id : Int
  name : String
  cover : String
  plot : String
  cast : String
  director : String
  genre : String
  release_date : String
  last_modified : String
  rating : String
  rating_5based : Int
  backdrop_path : String
  youtube_trailer : String
  episode_run_time : String
  category_id : String
deriving DecidableEq, Repr

/-- In-memory cache entry for VOD streams: `{ data, timestamp, categoryId? }`. -/
structure VodCacheEntry where
  data : List Movie
  timestamp : Nat
  categoryId : Option String
deriving DecidableEq, Repr

/-- In-memory cache entry for a categories catalog: `{ data, timestamp }`. -/
structure CategoriesCacheEntry where
  data : List Category
  timestamp : Nat
deriving DecidableEq, Repr

/-- In-memory cache entry for series: `{ data, timestamp, categoryId? }`. -/
structure SeriesCacheEntry where
  data : List Series
  timestamp : Nat
  categoryId : Option String
deriving DecidableEq, Repr

/-- A persisted string blob, as far as `JSON.parse` can see it: either the
serialization of one of the cache objects / the auth object, or a string
that does not parse. -/
inductive Blob where
  | vod (e : VodCacheEntry)
  | cat (e : CategoriesCacheEntry)
  | seriesB (e : SeriesCacheEntry)
  | auth (credentials : Option XtreamCredentials) (authData : Option AuthResponse)
  | garbage
deriving DecidableEq, Repr

/-- The persistent key-value store: an association of string keys to blobs. -/
abbrev Store := List (String × Blob)

def emptyStore : Store := []

def storeGet (st : Store) (k : String) : Option Blob :=
  (List.find? (fun p => p.1 == k) st).map (fun p => p.2)

def storeRemove (st : Store) (k : String) : Store :=
  List.filter (fun p => p.1 != k) st

def storeSet (st : Store) (k : String) (b : Blob) : Store :=
  storeRemove st k ++ [(k, b)]

/-- Failure oracle for the persistent store: which operations reject. -/
structure StoreFx where
  failGet : String → Bool
  failSet : String → Bool
  failRemove : String → Bool

def noFail : StoreFx := ⟨fun _ => false, fun _ => false, fun _ => false⟩

/-- Errors surfaced as rejected promises / thrown exceptions. -/
inductive JsError where
  | notAuthenticated
  | netFail (msg : String)
  | storeFail (key : String)
deriving DecidableEq, Repr

/-- Model of `AsyncStorage.setItem`, which may reject. -/
def setItem (fx : StoreFx) (st : Store) (k : String) (b : Blob) : Except JsError Store :=
  if fx.failSet k then .error (.storeFail k) else .ok (storeSet st k b)

/-- Sequentially `await AsyncStorage.removeItem` the given keys; the first
rejection aborts the sequence.  Returns the first error (if any) and the
store as modified up to that point. -/
def removeSeq (fx : StoreFx) (st : Store) : List String → Option JsError × Store
  | [] => (none, st)
  | k :: ks =>
    if fx.failRemove k then (some (.storeFail k), st)
    else removeSeq fx (storeRemove st k) ks

/-- The mutable fields of the `XtreamCodesApi` instance. -/
structure ApiState where
  credentials : Option XtreamCredentials
  authData : Option AuthResponse
  vodCache : Option VodCacheEntry
  vodCategoriesCache : Option CategoriesCacheEntry
  seriesCache : Option SeriesCacheEntry
  seriesCategoriesCache : Option CategoriesCacheEntry
deriving DecidableEq, Repr

/-- Field initial values of a fresh instance (before `loadCredentials` /
`loadCaches` resolve). -/
def initState : ApiState :=
  { credentials := none, authData := none, vodCache := none,
    vodCategoriesCache := none, seriesCache := none,
    seriesCategoriesCache := none }

/-- Network oracle: the decoded `response.data` (or rejection) that the
remote service would produce for each request the cache layer issues. -/
structure Net where
  liveStreamsResp : Option String → Except JsError (List Channel)
  vodStreamsResp : Option String → Except JsError (List Movie)
  seriesResp : Option String → Except JsError (List Series)
  vodCategoriesResp : Except JsError (List Category)
  seriesCategoriesResp : Except JsError (List Category)

/-- Observable network requests. -/
inductive NetCall where
  | liveStreams (category_id : Option String)
  | vodStreams (category_id : Option String)
  | seriesCall (category_id : Option String)
  | vodCategories
  | seriesCategories
deriving DecidableEq, Repr

namespace XtreamCodesApi

/-- Model of `isCacheValid`: `Date.now() - timestamp < CACHE_EXPIRY_TIME`
(JavaScript subtraction can go negative, hence the `Int` arithmetic). -/
def isCacheValid (now timestamp : Nat) : Bool :=
  decide ((now : Int) - (timestamp : Int) < (CACHE_EXPIRY_TIME : Int))

/-- Model of `ensureAuthenticated`: throws unless both credentials and auth data are set. -/
def ensureAuthenticated (s : ApiState) : Except JsError Unit :=
  if s.credentials.isSome && s.authData.isSome then .ok ()
  else .error .notAuthenticated

/-- Model of `getUserInfo()`: username and selected auth fields, or null. -/
def getUserInfo (s : ApiState) :
    Option (String × String × String × String) :=
  match s.credentials, s.authData with
  | some c, some a =>
    some (c.username, a.user_info.exp_date, a.user_info.status,
          a.user_info.max_connections)
  | _, _ => none

/-- Model of `saveVodCache`: sets the in-memory entry, then best-effort persists it
(the `setItem` rejection is caught and logged; the in-memory write stands). -/
def saveVodCache (fx : StoreFx) (now : Nat) (s : ApiState) (st : Store)
    (movies : List Movie) (categoryId : Option String) : ApiState × Store :=
  let cacheObject : VodCacheEntry := ⟨movies, now, categoryId⟩
  let s' := { s with vodCache := some cacheObject }
  match setItem fx st VOD_CACHE_KEY (Blob.vod cacheObject) with
  | .ok st' => (s', st')
  | .error _ => (s', st)

/-- Model of `saveVodCategoriesCache` (same catch-and-log shape as `saveVodCache`). -/
def saveVodCategoriesCache (fx : StoreFx) (now : Nat) (s : ApiState) (st : Store)
    (categories : List Category) : ApiState × Store :=
  let cacheObject : CategoriesCacheEntry := ⟨categories, now⟩
  let s' := { s with vodCategoriesCache := some cacheObject }
  match setItem fx st VOD_CATEGORIES_CACHE_KEY (Blob.cat cacheObject) with
  | .ok st' => (s', st')
  | .error _ => (s', st)

/-- Model of `saveSeriesCache` (same catch-and-log shape as `saveVodCache`). -/
def saveSeriesCache (fx : StoreFx) (now : Nat) (s : ApiState) (st : Store)
    (series : List Series) (categoryId : Option String) : ApiState × Store :=
  let cacheObject : SeriesCacheEntry := ⟨series, now, categoryId⟩
  let s' := { s with seriesCache := some cacheObject }
  match setItem fx st SERIES_CACHE_KEY (Blob.seriesB cacheObject) with
  | .ok st' => (s', st')
  | .error _ => (s', st)

/-- Model of `saveSeriesCategoriesCache` (same catch-and-log shape as `saveVodCache`). -/
def saveSeriesCategoriesCache (fx : StoreFx) (now : Nat) (s : ApiState) (st : Store)
    (categories : List Category) : ApiState × Store :=
  let cacheObject : CategoriesCacheEntry := ⟨categories, now⟩
  let s' := { s with seriesCategoriesCache := some cacheObject }
  match setItem fx st SERIES_CATEGORIES_CACHE_KEY (Blob.cat cacheObject) with
  | .ok st' => (s', st')
  | .error _ => (s', st)

/-- The miss path of `getVodCategories`: fetch from the API, tag each
category with `category_type: 'movie'`, cache, return. -/
def fetchVodCategoriesMiss (net : Net) (fx : StoreFx) (now : Nat)
    (s : ApiState) (st : Store) :
    Except JsError (List Category) × ApiState × Store × List NetCall :=
  match net.vodCategoriesResp with
  | .error e => (.error e, s, st, [NetCall.vodCategories])
  | .ok data =>
    let categories := data.map (fun c => { c with category_type := some .movie })
    let (s', st') := saveVodCategoriesCache fx now s st categories
    (.ok categories, s', st', [NetCall.vodCategories])

/-- Model of `getVodCategories()`. -/
def getVodCategories (net : Net) (fx : StoreFx) (now : Nat)
    (s : ApiState) (st : Store) :
    Except JsError (List Category) × ApiState × Store × List NetCall :=
  match ensureAuthenticated s with
  | .error e => (.error e, s, st, [])
  | .ok _ =>
    match s.vodCategoriesCache with
    | some cache =>
      if isCacheValid now cache.timestamp then (.ok cache.data, s, st, [])
      else fetchVodCategoriesMiss net fx now s st
    | none => fetchVodCategoriesMiss net fx now s st

/-- The miss path of `getSeriesCategories`. -/
def fetchSeriesCategoriesMiss (net : Net) (fx : StoreFx) (now : Nat)
    (s : ApiState) (st : Store) :
    Except JsError (List Category) × ApiState × Store × List NetCall :=
  match net.seriesCategoriesResp with
  | .error e => (.error e, s, st, [NetCall.seriesCategories])
  | .ok data =>
    let categories := data.map (fun c => { c with category_type := some .seriesKind })
    let (s', st') := saveSeriesCategoriesCache fx now s st categories
    (.ok categories, s', st', [NetCall.seriesCategories])

/-- Model of `getSeriesCategories()`. -/
def getSeriesCategories (net : Net) (fx : StoreFx) (now : Nat)
    (s : ApiState) (st : Store) :
    Except JsError (List Category) × ApiState × Store × List NetCall :=
  match ensureAuthenticated s with
  | .error e => (.error e, s, st, [])
  | .ok _ =>
    match s.seriesCategoriesCache with
    | some cache =>
      if isCacheValid now cache.timestamp then (.ok cache.data, s, st, [])
      else fetchSeriesCategoriesMiss net fx now s st
    | none => fetchSeriesCategoriesMiss net fx now s st

/-- Model of `getLiveStreams(category_id?)`: plain network passthrough, no cache. -/
def getLiveStreams (net : Net) (s : ApiState) (st : Store)
    (category_id : Option String) :
    Except JsError (List Channel) × ApiState × Store × List NetCall :=
  match ensureAuthenticated s with
  | .error e => (.error e, s, st, [])
  | .ok _ =>
    match net.liveStreamsResp category_id with
    | .error e => (.error e, s, st, [NetCall.liveStreams category_id])
    | .ok data => (.ok data, s, st, [NetCall.liveStreams category_id])

/-- The miss path of `getVodStreams`: fetch from the API, cache under the
requested filter, return `response.data`. -/
def fetchVodStreamsMiss (net : Net) (fx : StoreFx) (now : Nat)
    (s : ApiState) (st : Store) (category_id : Option String) :
    Except JsError (List Movie) × ApiState × Store × List NetCall :=
  match net.vodStreamsResp category_id with
  | .error e => (.error e, s, st, [NetCall.vodStreams category_id])
  | .ok data =>
    let (s', st') := saveVodCache fx now s st data category_id
    (.ok data, s', st', [NetCall.vodStreams category_id])

/-- Model of `getVodStreams(category_id?)`: serve the cached entry when it is
unexpired and carries the same `categoryId`, else fetch and replace. -/
def getVodStreams (net : Net) (fx : StoreFx) (now : Nat)
    (s : ApiState) (st : Store) (category_id : Option String) :
    Except JsError (List Movie) × ApiState × Store × List NetCall :=
  match ensureAuthenticated s with
  | .error e => (.error e, s, st, [])
  | .ok _ =>
    match s.vodCache with
    | some cache =>
      if isCacheValid now cache.timestamp && cache.categoryId == category_id then
        (.ok cache.data, s, st, [])
      else fetchVodStreamsMiss net fx now s st category_id
    | none => fetchVodStreamsMiss net fx now s st category_id

/-- The miss path of `getSeries`. -/
def fetchSeriesMiss (net : Net) (fx : StoreFx) (now : Nat)
    (s : ApiState) (st : Store) (category_id : Option String) :
    Except JsError (List Series) × ApiState × Store × List NetCall :=
  match net.seriesResp category_id with
  | .error e => (.error e, s, st, [NetCall.seriesCall category_id])
  | .ok data =>
    let (s', st') := saveSeriesCache fx now s st data category_id
    (.ok data, s', st', [NetCall.seriesCall category_id])

/-- Model of `getSeries(category_id?)`. -/
def getSeries (net : Net) (fx : StoreFx) (now : Nat)
    (s : ApiState) (st : Store) (category_id : Option String) :
    Except JsError (List Series) × ApiState × Store × List NetCall :=
  match ensureAuthenticated s with
  | .error e => (.error e, s, st, [])
  | .ok _ =>
    match s.seriesCache with
    | some cache =>
      if isCacheValid now cache.timestamp && cache.categoryId == category_id then
        (.ok cache.data, s, st, [])
      else fetchSeriesMiss net fx now s st category_id
    | none => fetchSeriesMiss net fx now s st category_id

/-- Model of `JSON.parse` of the blob under `VOD_CACHE_KEY` (garbage throws). -/
def parseVodBlob : Blob → Except Unit VodCacheEntry
  | .vod e => .ok e
  | _ => .error ()

/-- Model of `JSON.parse` of a categories-cache blob (garbage throws). -/
def parseCatBlob : Blob → Except Unit CategoriesCacheEntry
  | .cat e => .ok e
  | _ => .error ()

/-- Model of `JSON.parse` of the blob under `SERIES_CACHE_KEY` (garbage throws). -/
def parseSeriesBlob : Blob → Except Unit SeriesCacheEntry
  | .seriesB e => .ok e
  | _ => .error ()

/-- Tail of `loadCaches`: assignments after the series-categories parse. -/
def loadCachesStep4 (st : Store) (s : ApiState) : ApiState :=
  match storeGet st SERIES_CATEGORIES_CACHE_KEY with
  | none => s
  | some b =>
    match parseCatBlob b with
    | .ok e => { s with seriesCategoriesCache := some e }
    | .error _ => s

/-- Tail of `loadCaches` from the series parse on. -/
def loadCachesStep3 (st : Store) (s : ApiState) : ApiState :=
  match storeGet st SERIES_CACHE_KEY with
  | none => loadCachesStep4 st s
  | some b =>
    match parseSeriesBlob b with
    | .ok e => loadCachesStep4 st { s with seriesCache := some e }
    | .error _ => s

/-- Tail of `loadCaches` from the VOD-categories parse on. -/
def loadCachesStep2 (st : Store) (s : ApiState) : ApiState :=
  match storeGet st VOD_CATEGORIES_CACHE_KEY with
  | none => loadCachesStep3 st s
  | some b =>
    match parseCatBlob b with
    | .ok e => loadCachesStep3 st { s with vodCategoriesCache := some e }
    | .error _ => s

/-- Model of `loadCaches()`: the `Promise.all` over the four `getItem`s — one rejected
read rejects the whole batch and the single `catch` restores nothing; the
four `JSON.parse`-and-assign statements then run in order inside the same
`try`, so a parse failure keeps the earlier assignments and skips the
later ones. -/
def loadCaches (fx : StoreFx) (st : Store) (s : ApiState) : ApiState :=
  if fx.failGet VOD_CACHE_KEY || fx.failGet VOD_CATEGORIES_CACHE_KEY ||
      fx.failGet SERIES_CACHE_KEY || fx.failGet SERIES_CATEGORIES_CACHE_KEY then
    s
  else
    match storeGet st VOD_CACHE_KEY with
    | none => loadCachesStep2 st s
    | some b =>
      match parseVodBlob b with
      | .ok e => loadCachesStep2 st { s with vodCache := some e }
      | .error _ => s

def favoritesKey (username : String) : String :=
  "huluxtream_favorites_" ++ username

def pcEnabledKey (username : String) : String :=
  username ++ "_huluxtream_parental_control_enabled"

def pcPinKey (username : String) : String :=
  username ++ "_huluxtream_parental_control_pin"

def pcCategoriesKey (username : String) : String :=
  username ++ "_huluxtream_restricted_categories"

/-- Model of `logout()`: clears credentials and all four in-memory entries, then
`await`s five `removeItem`s (auth key plus the four cache keys) with no
`try`/`catch` — a rejection there propagates; the username-scoped cleanup
that follows is wrapped in its own `try`/`catch`. -/
def logout (fx : StoreFx) (s : ApiState) (st : Store) :
    Except JsError Unit × ApiState × Store :=
  let username := (getUserInfo s).map (fun u => u.1)
  let s1 : ApiState :=
    { credentials := none, authData := none, vodCache := none,
      vodCategoriesCache := none, seriesCache := none,
      seriesCategoriesCache := none }
  match removeSeq fx st [AUTH_STORAGE_KEY, VOD_CACHE_KEY,
      VOD_CATEGORIES_CACHE_KEY, SERIES_CACHE_KEY,
      SERIES_CATEGORIES_CACHE_KEY] with
  | (some e, st1) => (.error e, s1, st1)
  | (none, st1) =>
    match username with
    | none => (.ok (), s1, st1)
    | some u =>
      match removeSeq fx st1 [favoritesKey u, pcEnabledKey u, pcPinKey u,
          pcCategoriesKey u] with
      | (_, st2) => (.ok (), s1, st2)

/-- Model of `clearCache()`: null the four in-memory entries, `await` the four
`removeItem`s (a rejection hits the outer `catch`, which logs and
re-rejects), then, when credentials and auth data are present, re-fetch
live streams, VOD streams and series — each in its own `try`/`catch`. -/
def clearCache (net : Net) (fx : StoreFx) (now : Nat)
    (s : ApiState) (st : Store) :
    Except JsError Unit × ApiState × Store × List NetCall :=
  let s1 := { s with vodCache := none, vodCategoriesCache := none,
                     seriesCache := none, seriesCategoriesCache := none }
  match removeSeq fx st [VOD_CACHE_KEY, VOD_CATEGORIES_CACHE_KEY,
      SERIES_CACHE_KEY, SERIES_CATEGORIES_CACHE_KEY] with
  | (some e, st1) => (.error e, s1, st1, [])
  | (none, st1) =>
    if s1.credentials.isSome && s1.authData.isSome then
      let r1 := getLiveStreams net s1 st1 none
      let r2 := getVodStreams net fx now r1.2.1 r1.2.2.1 none
      let r3 := getSeries net fx now r2.2.1 r2.2.2.1 none
      (.ok (), r3.2.1, r3.2.2.1, r1.2.2.2 ++ r2.2.2.2 ++ r3.2.2.2)
    else (.ok (), s1, st1, [])

end XtreamCodesApi

/-- The four cacheable catalog types. -/
inductive CatalogType where
  | vodStreams
  | vodCategories
  | seriesT
  | seriesCategories
deriving DecidableEq, Repr

/-- A catalog payload, uniformly over the four types. -/
inductive CatalogData where
  | movies (l : List Movie)
  | categories (l : List Category)
  | seriesData (l : List Series)
deriving DecidableEq, Repr

/-- The network request a miss for the given type and filter issues. -/
def netCallOf : CatalogType → Option String → NetCall
  | .vodStreams, c => .vodStreams c
  | .vodCategories, _ => .vodCategories
  | .seriesT, c => .seriesCall c
  | .seriesCategories, _ => .seriesCategories

/-- The in-memory cache slot of a catalog type, viewed uniformly as
`(data, timestamp, filter)` (category catalogs have no filter dimension:
their slot reads back `none`). -/
def cacheSlot : CatalogType → ApiState → Option (CatalogData × Nat × Option String)
  | .vodStreams, s =>
    s.vodCache.map (fun e => (.movies e.data, e.timestamp, e.categoryId))
  | .vodCategories, s =>
    s.vodCategoriesCache.map (fun e => (.categories e.data, e.timestamp, none))
  | .seriesT, s =>
    s.seriesCache.map (fun e => (.seriesData e.data, e.timestamp, e.categoryId))
  | .seriesCategories, s =>
    s.seriesCategoriesCache.map (fun e => (.categories e.data, e.timestamp, none))

/-- The spec's `fetchCatalog(type, categoryFilter?)`, dispatching to the
four source methods (category-catalog types ignore the filter). -/
def fetchCatalog (t : CatalogType) (net : Net) (fx : StoreFx) (now : Nat)
    (s : ApiState) (st : Store) (c : Option String) :
    Except JsError CatalogData × ApiState × Store × List NetCall :=
  match t with
  | .vodStreams =>
    let r := XtreamCodesApi.getVodStreams net fx now s st c
    (r.1.map .movies, r.2)
  | .vodCategories =>
    let r := XtreamCodesApi.getVodCategories net fx now s st
    (r.1.map .categories, r.2)
  | .seriesT =>
    let r := XtreamCodesApi.getSeries net fx now s st c
    (r.1.map .seriesData, r.2)
  | .seriesCategories =>
    let r := XtreamCodesApi.getSeriesCategories net fx now s st
    (r.1.map .categories, r.2)

/-- The value the remote service produces for a given type and filter,
after the client-side `category_type` tagging — the exact value a miss of
`fetchCatalog` returns on success, and the rejection it propagates on
failure. -/
def netResult (t : CatalogType) (net : Net) (c : Option String) :
    Except JsError CatalogData :=
  match t with
  | .vodStreams => (net.vodStreamsResp c).map .movies
  | .vodCategories =>
    net.vodCategoriesResp.map
      (fun l => .categories (l.map (fun x => { x with category_type := some .movie })))
  | .seriesT => (net.seriesResp c).map .seriesData
  | .seriesCategories =>
    net.seriesCategoriesResp.map
      (fun l => .categories (l.map (fun x => { x with category_type := some .seriesKind })))

/-- The hit condition of the source methods, uniformly: an entry exists,
is unexpired, and (for stream catalogs) carries the requested filter. -/
def cacheHit (t : CatalogType) (now : Nat) (s : ApiState) (c : Option String) : Bool :=
  match t with
  | .vodStreams =>
    match s.vodCache with
    | some e => XtreamCodesApi.isCacheValid now e.timestamp && e.categoryId == c
    | none => false
  | .vodCategories =>
    match s.vodCategoriesCache with
    | some e => XtreamCodesApi.isCacheValid now e.timestamp
    | none => false
  | .seriesT =>
    match s.seriesCache with
    | some e => XtreamCodesApi.isCacheValid now e.timestamp && e.categoryId == c
    | none => false
  | .seriesCategories =>
    match s.seriesCategoriesCache with
    | some e => XtreamCodesApi.isCacheValid now e.timestamp
    | none => false

/-- Whether a catalog type has a category-filter dimension. -/
def CatalogType.isStream : CatalogType → Bool
  | .vodStreams => true
  | .seriesT => true
  | .vodCategories => false
  | .seriesCategories => false

/-- The filter recorded in the entry a fetch of this type creates. -/
def filterOf (t : CatalogType) (c : Option String) : Option String :=
  if t.isStream then c else none

/-- The persisted key of each catalog type. -/
def keyOf : CatalogType → String
  | .vodStreams => VOD_CACHE_KEY
  | .vodCategories => VOD_CATEGORIES_CACHE_KEY
  | .seriesT => SERIES_CACHE_KEY
  | .seriesCategories => SERIES_CATEGORIES_CACHE_KEY

/- Concrete sample world used to exercise the definitions. -/

def mCred : XtreamCredentials := ⟨"u", "p", "http://example.org"⟩

def mUserInfo : UserInfo :=
  ⟨"u", "p", "", 1, "Active", "0", "0", "1", "0", "2", []⟩

def mServerInfo : ServerInfo :=
  ⟨"example.org", "80", "443", "http", "25462", "UTC", 0, "t"⟩

def mAuth : AuthResponse := ⟨mUserInfo, mServerInfo⟩

/-- A logged-in instance with empty caches. -/
def authedState : ApiState :=
  { initState with credentials := some mCred, authData := some mAuth }

def m1 : Movie := ⟨1, "m1", "movie", 11, "", "", "5", "mp4", "", ""⟩

def m2 : Movie := ⟨2, "m2", "movie", 12, "", "", "6", "mp4", "", ""⟩

def cat1 : Category := ⟨"5", "Action", 0, none⟩

def ser1 : Series := ⟨7, "s1", "", "", "", "", "", "", "", "", 0, "", "", "", "5"⟩

def chan1 : Channel := ⟨1, "c1", "live", 3, "", "", "", "1", "", 0, "", 0⟩

/-- A remote service that answers every request. -/
def sampleNet : Net :=
  { liveStreamsResp := fun _ => .ok [chan1]
    vodStreamsResp := fun c => if c == some "6" then .ok [m2] else .ok [m1]
    seriesResp := fun _ => .ok [ser1]
    vodCategoriesResp := .ok [cat1]
    seriesCategoriesResp := .ok [cat1] }

/-- A remote service that rejects every request. -/
def downNet : Net :=
  { liveStreamsResp := fun _ => .error (.netFail "down")
    vodStreamsResp := fun _ => .error (.netFail "down")
    seriesResp := fun _ => .error (.netFail "down")
    vodCategoriesResp := .error (.netFail "down")
    seriesCategoriesResp := .error (.netFail "down") }

/-- A remote service where only the series request rejects. -/
def seriesDownNet : Net :=
  { sampleNet with seriesResp := fun _ => .error (.netFail "down") }

/-- A store where only the auth-key `removeItem` rejects. -/
def fxFailAuthRemove : StoreFx :=
  { noFail with failRemove := fun k => k == AUTH_STORAGE_KEY }

/-- A store where only the VOD-cache-key `removeItem` rejects. -/
def fxFailVodRemove : StoreFx :=
  { noFail with failRemove := fun k => k == VOD_CACHE_KEY }

/-- A persisted image whose VOD blob is malformed while the series blob is
a perfectly parseable cache entry. -/
def storeGarbageVod : Store :=
  [(VOD_CACHE_KEY, Blob.garbage),
   (SERIES_CACHE_KEY, Blob.seriesB ⟨[ser1], 0, none⟩)]

/-- A store where every `setItem` rejects. -/
def fxFailAllSet : StoreFx := { noFail with failSet := fun _ => true }

/-- A persisted image with all four cache keys present and parseable. -/
def storeFull : Store :=
  [(VOD_CACHE_KEY, Blob.vod ⟨[m1], 1, some "5"⟩),
   (VOD_CATEGORIES_CACHE_KEY, Blob.cat ⟨[cat1], 2⟩),
   (SERIES_CACHE_KEY, Blob.seriesB ⟨[ser1], 3, none⟩),
   (SERIES_CATEGORIES_CACHE_KEY, Blob.cat ⟨[cat1], 4⟩)]

/-- The state `authedState` with all four cache slots populated at timestamp 0. -/
def warmState : ApiState :=
  { authedState with
    vodCache := some ⟨[m1], 0, some "5"⟩,
    vodCategoriesCache := some ⟨[cat1], 0⟩,
    seriesCache := some ⟨[ser1], 0, some "5"⟩,
    seriesCategoriesCache := some ⟨[cat1], 0⟩ }

/-- The `category_type: 'movie'` tagging applied to fetched VOD categories. -/
def tagMovie (l : List Category) : List Category :=
  l.map (fun x => { x with category_type := some CategoryType.movie })

/-- The `category_type: 'series'` tagging applied to fetched series categories. -/
def tagSeries (l : List Category) : List Category :=
  l.map (fun x => { x with category_type := some CategoryType.seriesKind })

/- Association-list store lemmas. -/

theorem storeGet_cons (p : String × Blob) (rest : Store) (k : String) :
    storeGet (p :: rest) k = if p.1 = k then some p.2 else storeGet rest k := by
  by_cases h : p.1 = k <;> simp [storeGet, List.find?_cons, h]

theorem storeRemove_cons (p : String × Blob) (rest : Store) (k : String) :
    storeRemove (p :: rest) k =
      if p.1 = k then storeRemove rest k else p :: storeRemove rest k := by
  by_cases h : p.1 = k <;> simp [storeRemove, List.filter_cons, h]

theorem storeGet_append (a b : Store) (k : String) :
    storeGet (a ++ b) k = (storeGet a k).or (storeGet b k) := by
  induction a with
  | nil => simp [storeGet]
  | cons p rest ih =>
    by_cases h : p.1 = k <;>
      simp [storeGet_cons, h, List.cons_append, ih]

theorem storeGet_remove_self (st : Store) (k : String) :
    storeGet (storeRemove st k) k = none := by
  induction st with
  | nil => rfl
  | cons p rest ih =>
    by_cases h : p.1 = k <;> simp [storeRemove_cons, storeGet_cons, h, ih]

theorem storeGet_remove_other (st : Store) {k k' : String} (h : k ≠ k') :
    storeGet (storeRemove st k') k = storeGet st k := by
  induction st with
  | nil => rfl
  | cons p rest ih =>
    by_cases hp : p.1 = k' <;> by_cases hk : p.1 = k <;>
      simp_all [storeRemove_cons, storeGet_cons]

theorem storeGet_set_self (st : Store) (k : String) (b : Blob) :
    storeGet (storeSet st k b) k = some b := by
  rw [storeSet, storeGet_append, storeGet_remove_self]
  simp [storeGet_cons]

theorem storeGet_set_other (st : Store) {k k' : String} (b : Blob) (h : k ≠ k') :
    storeGet (storeSet st k' b) k = storeGet st k := by
  rw [storeSet, storeGet_append, storeGet_remove_other st h]
  cases hg : storeGet st k <;> simp [storeGet_cons, Ne.symm h, storeGet]

theorem storeGet_remove_none {st : Store} {k : String} (k' : String)
    (h : storeGet st k = none) : storeGet (storeRemove st k') k = none := by
  by_cases hk : k = k'
  · subst hk; exact storeGet_remove_self st k
  · rw [storeGet_remove_other st hk]; exact h

theorem storeGet_foldl_remove_none (ks : List String) (st : Store) (k : String)
    (h : storeGet st k = none) :
    storeGet (ks.foldl storeRemove st) k = none := by
  induction ks generalizing st with
  | nil => exact h
  | cons a rest ih => exact ih _ (storeGet_remove_none a h)

theorem storeGet_foldl_remove_mem (ks : List String) (st : Store) (k : String)
    (h : k ∈ ks) : storeGet (ks.foldl storeRemove st) k = none := by
  induction ks generalizing st with
  | nil => simp at h
  | cons a rest ih =>
    rcases List.mem_cons.mp h with h1 | h2
    · subst h1
      exact storeGet_foldl_remove_none rest _ k (storeGet_remove_self st k)
    · exact ih _ h2

/- Behavior lemmas for the four catalog methods. -/

theorem fetchVodStreamsMiss_ok {net fx now s st c l s1 st1 cs}
    (h : XtreamCodesApi.fetchVodStreamsMiss net fx now s st c = (.ok l, s1, st1, cs)) :
    s1 = { s with vodCache := some ⟨l, now, c⟩ } ∧ cs = [NetCall.vodStreams c] := by
  unfold XtreamCodesApi.fetchVodStreamsMiss at h
  cases hN : net.vodStreamsResp c with
  | error e => rw [hN] at h; simp at h
  | ok data =>
    rw [hN] at h
    unfold XtreamCodesApi.saveVodCache setItem at h
    by_cases hF : fx.failSet VOD_CACHE_KEY = true <;>
      simp [hF, Prod.ext_iff] at h <;>
      obtain ⟨hl, hs, -, hcs⟩ := h <;> subst hl <;>
      exact ⟨hs.symm, hcs.symm⟩

theorem getVodStreams_hit {net fx now s st c e}
    (hauth : XtreamCodesApi.ensureAuthenticated s = .ok ())
    (he : s.vodCache = some e)
    (hv : XtreamCodesApi.isCacheValid now e.timestamp = true)
    (hc : e.categoryId = c) :
    XtreamCodesApi.getVodStreams net fx now s st c = (.ok e.data, s, st, []) := by
  unfold XtreamCodesApi.getVodStreams
  rw [hauth, he]
  simp [hv, hc]

theorem getVodStreams_ok {net fx now s st c l s1 st1 cs}
    (h : XtreamCodesApi.getVodStreams net fx now s st c = (.ok l, s1, st1, cs)) :
    s1.credentials = s.credentials ∧ s1.authData = s.authData ∧
    XtreamCodesApi.ensureAuthenticated s1 = .ok () ∧
    ∃ ts, s1.vodCache = some ⟨l, ts, c⟩ := by
  unfold XtreamCodesApi.getVodStreams at h
  split at h
  · simp at h
  · rename_i u hA
    split at h
    · rename_i cache hC
      split at h
      · rename_i hg
        simp only [Prod.mk.injEq, Except.ok.injEq] at h
        obtain ⟨hl, hs, -, -⟩ := h
        subst hs
        simp only [Bool.and_eq_true, beq_iff_eq] at hg
        refine ⟨rfl, rfl, ?_, cache.timestamp, ?_⟩
        · cases u; exact hA
        · rw [hC, ← hl, ← hg.2]
      · obtain ⟨hs, -⟩ := fetchVodStreamsMiss_ok h
        subst hs
        refine ⟨rfl, rfl, ?_, now, rfl⟩
        cases u
        simpa [XtreamCodesApi.ensureAuthenticated] using hA
    · obtain ⟨hs, -⟩ := fetchVodStreamsMiss_ok h
      subst hs
      refine ⟨rfl, rfl, ?_, now, rfl⟩
      cases u
      simpa [XtreamCodesApi.ensureAuthenticated] using hA

theorem fetchSeriesMiss_ok {net fx now s st c l s1 st1 cs}
    (h : XtreamCodesApi.fetchSeriesMiss net fx now s st c = (.ok l, s1, st1, cs)) :
    s1 = { s with seriesCache := some ⟨l, now, c⟩ } ∧ cs = [NetCall.seriesCall c] := by
  unfold XtreamCodesApi.fetchSeriesMiss at h
  cases hN : net.seriesResp c with
  | error e => rw [hN] at h; simp at h
  | ok data =>
    rw [hN] at h
    unfold XtreamCodesApi.saveSeriesCache setItem at h
    by_cases hF : fx.failSet SERIES_CACHE_KEY = true <;>
      simp [hF, Prod.ext_iff] at h <;>
      obtain ⟨hl, hs, -, hcs⟩ := h <;> subst hl <;>
      exact ⟨hs.symm, hcs.symm⟩

theorem getSeries_hit {net fx now s st c e}
    (hauth : XtreamCodesApi.ensureAuthenticated s = .ok ())
    (he : s.seriesCache = some e)
    (hv : XtreamCodesApi.isCacheValid now e.timestamp = true)
    (hc : e.categoryId = c) :
    XtreamCodesApi.getSeries net fx now s st c = (.ok e.data, s, st, []) := by
  unfold XtreamCodesApi.getSeries
  rw [hauth, he]
  simp [hv, hc]

theorem getSeries_ok {net fx now s st c l s1 st1 cs}
    (h : XtreamCodesApi.getSeries net fx now s st c = (.ok l, s1, st1, cs)) :
    s1.credentials = s.credentials ∧ s1.authData = s.authData ∧
    XtreamCodesApi.ensureAuthenticated s1 = .ok () ∧
    ∃ ts, s1.seriesCache = some ⟨l, ts, c⟩ := by
  unfold XtreamCodesApi.getSeries at h
  split at h
  · simp at h
  · rename_i u hA
    split at h
    · rename_i cache hC
      split at h
      · rename_i hg
        simp only [Prod.mk.injEq, Except.ok.injEq] at h
        obtain ⟨hl, hs, -, -⟩ := h
        subst hs
        simp only [Bool.and_eq_true, beq_iff_eq] at hg
        refine ⟨rfl, rfl, ?_, cache.timestamp, ?_⟩
        · cases u; exact hA
        · rw [hC, ← hl, ← hg.2]
      · obtain ⟨hs, -⟩ := fetchSeriesMiss_ok h
        subst hs
        refine ⟨rfl, rfl, ?_, now, rfl⟩
        cases u
        simpa [XtreamCodesApi.ensureAuthenticated] using hA
    · obtain ⟨hs, -⟩ := fetchSeriesMiss_ok h
      subst hs
      refine ⟨rfl, rfl, ?_, now, rfl⟩
      cases u
      simpa [XtreamCodesApi.ensureAuthenticated] using hA

theorem fetchVodCategoriesMiss_ok {net fx now s st l s1 st1 cs}
    (h : XtreamCodesApi.fetchVodCategoriesMiss net fx now s st = (.ok l, s1, st1, cs)) :
    s1 = { s with vodCategoriesCache := some ⟨l, now⟩ } ∧ cs = [NetCall.vodCategories] := by
  unfold XtreamCodesApi.fetchVodCategoriesMiss at h
  cases hN : net.vodCategoriesResp with
  | error e => rw [hN] at h; simp at h
  | ok data =>
    rw [hN] at h
    unfold XtreamCodesApi.saveVodCategoriesCache setItem at h
    by_cases hF : fx.failSet VOD_CATEGORIES_CACHE_KEY = true <;>
      simp [hF, Prod.ext_iff] at h <;>
      obtain ⟨hl, hs, -, hcs⟩ := h <;> subst hl <;>
      exact ⟨hs.symm, hcs.symm⟩

theorem getVodCategories_hit {net fx now s st e}
    (hauth : XtreamCodesApi.ensureAuthenticated s = .ok ())
    (he : s.vodCategoriesCache = some e)
    (hv : XtreamCodesApi.isCacheValid now e.timestamp = true) :
    XtreamCodesApi.getVodCategories net fx now s st = (.ok e.data, s, st, []) := by
  unfold XtreamCodesApi.getVodCategories
  rw [hauth, he]
  simp [hv]

theorem getVodCategories_ok {net fx now s st l s1 st1 cs}
    (h : XtreamCodesApi.getVodCategories net fx now s st = (.ok l, s1, st1, cs)) :
    s1.credentials = s.credentials ∧ s1.authData = s.authData ∧
    XtreamCodesApi.ensureAuthenticated s1 = .ok () ∧
    ∃ ts, s1.vodCategoriesCache = some ⟨l, ts⟩ := by
  unfold XtreamCodesApi.getVodCategories at h
  split at h
  · simp at h
  · rename_i u hA
    split at h
    · rename_i cache hC
      split at h
      · rename_i hg
        simp only [Prod.mk.injEq, Except.ok.injEq] at h
        obtain ⟨hl, hs, -, -⟩ := h
        subst hs
        refine ⟨rfl, rfl, ?_, cache.timestamp, ?_⟩
        · cases u; exact hA
        · rw [hC, ← hl]
      · obtain ⟨hs, -⟩ := fetchVodCategoriesMiss_ok h
        subst hs
        refine ⟨rfl, rfl, ?_, now, rfl⟩
        cases u
        simpa [XtreamCodesApi.ensureAuthenticated] using hA
    · obtain ⟨hs, -⟩ := fetchVodCategoriesMiss_ok h
      subst hs
      refine ⟨rfl, rfl, ?_, now, rfl⟩
      cases u
      simpa [XtreamCodesApi.ensureAuthenticated] using hA

theorem fetchSeriesCategoriesMiss_ok {net fx now s st l s1 st1 cs}
    (h : XtreamCodesApi.fetchSeriesCategoriesMiss net fx now s st = (.ok l, s1, st1, cs)) :
    s1 = { s with seriesCategoriesCache := some ⟨l, now⟩ } ∧
      cs = [NetCall.seriesCategories] := by
  unfold XtreamCodesApi.fetchSeriesCategoriesMiss at h
  cases hN : net.seriesCategoriesResp with
  | error e => rw [hN] at h; simp at h
  | ok data =>
    rw [hN] at h
    unfold XtreamCodesApi.saveSeriesCategoriesCache setItem at h
    by_cases hF : fx.failSet SERIES_CATEGORIES_CACHE_KEY = true <;>
      simp [hF, Prod.ext_iff] at h <;>
      obtain ⟨hl, hs, -, hcs⟩ := h <;> subst hl <;>
      exact ⟨hs.symm, hcs.symm⟩

theorem getSeriesCategories_hit {net fx now s st e}
    (hauth : XtreamCodesApi.ensureAuthenticated s = .ok ())
    (he : s.seriesCategoriesCache = some e)
    (hv : XtreamCodesApi.isCacheValid now e.timestamp = true) :
    XtreamCodesApi.getSeriesCategories net fx now s st = (.ok e.data, s, st, []) := by
  unfold XtreamCodesApi.getSeriesCategories
  rw [hauth, he]
  simp [hv]

theorem getSeriesCategories_ok {net fx now s st l s1 st1 cs}
    (h : XtreamCodesApi.getSeriesCategories net fx now s st = (.ok l, s1, st1, cs)) :
    s1.credentials = s.credentials ∧ s1.authData = s.authData ∧
    XtreamCodesApi.ensureAuthenticated s1 = .ok () ∧
    ∃ ts, s1.seriesCategoriesCache = some ⟨l, ts⟩ := by
  unfold XtreamCodesApi.getSeriesCategories at h
  split at h
  · simp at h
  · rename_i u hA
    split at h
    · rename_i cache hC
      split at h
      · rename_i hg
        simp only [Prod.mk.injEq, Except.ok.injEq] at h
        obtain ⟨hl, hs, -, -⟩ := h
        subst hs
        refine ⟨rfl, rfl, ?_, cache.timestamp, ?_⟩
        · cases u; exact hA
        · rw [hC, ← hl]
      · obtain ⟨hs, -⟩ := fetchSeriesCategoriesMiss_ok h
        subst hs
        refine ⟨rfl, rfl, ?_, now, rfl⟩
        cases u
        simpa [XtreamCodesApi.ensureAuthenticated] using hA
    · obtain ⟨hs, -⟩ := fetchSeriesCategoriesMiss_ok h
      subst hs
      refine ⟨rfl, rfl, ?_, now, rfl⟩
      cases u
      simpa [XtreamCodesApi.ensureAuthenticated] using hA

/-- Claim C1: for every catalog type, after a successful fetch with some filter,
a second call with the same type and filter while the entry is within the
TTL issues no network request and returns exactly the cached data — the
value the first call returned — leaving state and store untouched. -/
theorem catalog_cache_hit_skips_fetch
    (t : CatalogType) (net net' : Net) (fx fx' : StoreFx) (now1 now2 : Nat)
    (s s1 : ApiState) (st st1 : Store) (c : Option String) (d : CatalogData)
    (cs1 : List NetCall) (e : CatalogData × Nat × Option String)
    (h1 : fetchCatalog t net fx now1 s st c = (.ok d, s1, st1, cs1))
    (he : cacheSlot t s1 = some e)
    (hv : XtreamCodesApi.isCacheValid now2 e.2.1 = true) :
    fetchCatalog t net' fx' now2 s1 st1 c = (.ok d, s1, st1, []) := by
  cases t
  case vodStreams =>
    unfold fetchCatalog at h1 ⊢
    cases hG : XtreamCodesApi.getVodStreams net fx now1 s st c with
    | mk r1 rest =>
      obtain ⟨s1', st1', cs1'⟩ := rest
      rw [hG] at h1
      simp only [Prod.mk.injEq] at h1
      obtain ⟨hd, hs1, hst1, -⟩ := h1
      subst hs1; subst hst1
      cases r1 with
      | error err => simp [Except.map] at hd
      | ok l =>
        simp only [Except.map, Except.ok.injEq] at hd
        subst hd
        obtain ⟨-, -, hauth, ts, hvc⟩ := getVodStreams_ok hG
        rw [cacheSlot] at he
        rw [hvc] at he
        simp only [Option.map_some', Option.some.injEq] at he
        subst he
        rw [getVodStreams_hit hauth hvc (by simpa using hv) rfl]; rfl
  case seriesT =>
    unfold fetchCatalog at h1 ⊢
    cases hG : XtreamCodesApi.getSeries net fx now1 s st c with
    | mk r1 rest =>
      obtain ⟨s1', st1', cs1'⟩ := rest
      rw [hG] at h1
      simp only [Prod.mk.injEq] at h1
      obtain ⟨hd, hs1, hst1, -⟩ := h1
      subst hs1; subst hst1
      cases r1 with
      | error err => simp [Except.map] at hd
      | ok l =>
        simp only [Except.map, Except.ok.injEq] at hd
        subst hd
        obtain ⟨-, -, hauth, ts, hvc⟩ := getSeries_ok hG
        rw [cacheSlot] at he
        rw [hvc] at he
        simp only [Option.map_some', Option.some.injEq] at he
        subst he
        rw [getSeries_hit hauth hvc (by simpa using hv) rfl]; rfl
  case vodCategories =>
    unfold fetchCatalog at h1 ⊢
    cases hG : XtreamCodesApi.getVodCategories net fx now1 s st with
    | mk r1 rest =>
      obtain ⟨s1', st1', cs1'⟩ := rest
      rw [hG] at h1
      simp only [Prod.mk.injEq] at h1
      obtain ⟨hd, hs1, hst1, -⟩ := h1
      subst hs1; subst hst1
      cases r1 with
      | error err => simp [Except.map] at hd
      | ok l =>
        simp only [Except.map, Except.ok.injEq] at hd
        subst hd
        obtain ⟨-, -, hauth, ts, hvc⟩ := getVodCategories_ok hG
        rw [cacheSlot] at he
        rw [hvc] at he
        simp only [Option.map_some', Option.some.injEq] at he
        subst he
        rw [getVodCategories_hit hauth hvc (by simpa using hv)]; rfl
  case seriesCategories =>
    unfold fetchCatalog at h1 ⊢
    cases hG : XtreamCodesApi.getSeriesCategories net fx now1 s st with
    | mk r1 rest =>
      obtain ⟨s1', st1', cs1'⟩ := rest
      rw [hG] at h1
      simp only [Prod.mk.injEq] at h1
      obtain ⟨hd, hs1, hst1, -⟩ := h1
      subst hs1; subst hst1
      cases r1 with
      | error err => simp [Except.map] at hd
      | ok l =>
        simp only [Except.map, Except.ok.injEq] at hd
        subst hd
        obtain ⟨-, -, hauth, ts, hvc⟩ := getSeriesCategories_ok hG
        rw [cacheSlot] at he
        rw [hvc] at he
        simp only [Option.map_some', Option.some.injEq] at he
        subst he
        rw [getSeriesCategories_hit hauth hvc (by simpa using hv)]; rfl

theorem catalog_cache_hit_skips_fetch_witness :
    fetchCatalog .vodStreams sampleNet noFail 5
      { authedState with vodCache := some ⟨[m1], 0, some "5"⟩ }
      [(VOD_CACHE_KEY, Blob.vod ⟨[m1], 0, some "5"⟩)] (some "5")
    = (.ok (.movies [m1]),
       { authedState with vodCache := some ⟨[m1], 0, some "5"⟩ },
       [(VOD_CACHE_KEY, Blob.vod ⟨[m1], 0, some "5"⟩)], []) :=
  catalog_cache_hit_skips_fetch .vodStreams sampleNet sampleNet noFail noFail 0 5
    authedState _ emptyStore _ (some "5") (.movies [m1]) [.vodStreams (some "5")]
    (.movies [m1], 0, some "5") rfl rfl (by decide)

/-- Claim C10: the authentication gate precedes the cache lookup — with absent
credentials or auth data every catalog fetch throws `notAuthenticated`,
touches nothing, and issues no network request, even when a valid
unexpired entry sits in the cache. -/
theorem auth_gate_precedes_cache
    (t : CatalogType) (net : Net) (fx : StoreFx) (now : Nat)
    (s : ApiState) (st : Store) (c : Option String)
    (h : s.credentials = none ∨ s.authData = none) :
    fetchCatalog t net fx now s st c = (.error .notAuthenticated, s, st, []) := by
  have hA : XtreamCodesApi.ensureAuthenticated s = .error .notAuthenticated := by
    unfold XtreamCodesApi.ensureAuthenticated
    rcases h with h | h <;> simp [h]
  cases t <;>
    simp [fetchCatalog, XtreamCodesApi.getVodStreams, XtreamCodesApi.getSeries,
      XtreamCodesApi.getVodCategories, XtreamCodesApi.getSeriesCategories, hA,
      Except.map]

theorem auth_gate_precedes_cache_witness :
    fetchCatalog .vodStreams sampleNet noFail 5
      { warmState with credentials := none } emptyStore (some "5")
    = (.error .notAuthenticated, { warmState with credentials := none },
       emptyStore, []) :=
  auth_gate_precedes_cache .vodStreams sampleNet noFail 5
    { warmState with credentials := none } emptyStore (some "5") (Or.inl rfl)

/- Miss-path lemmas: what each method does when the hit condition fails. -/

theorem getVodStreams_miss_error {net fx now s st c err}
    (hauth : XtreamCodesApi.ensureAuthenticated s = .ok ())
    (hmiss : cacheHit .vodStreams now s c = false)
    (hN : net.vodStreamsResp c = .error err) :
    XtreamCodesApi.getVodStreams net fx now s st c
      = (.error err, s, st, [NetCall.vodStreams c]) := by
  unfold XtreamCodesApi.getVodStreams
  rw [hauth]
  cases hC : s.vodCache with
  | none => simp [XtreamCodesApi.fetchVodStreamsMiss, hN]
  | some cache =>
    simp only [cacheHit, hC] at hmiss
    simp [XtreamCodesApi.fetchVodStreamsMiss, hN]
    intro hv hc
    simp [hv, hc] at hmiss

theorem getVodStreams_miss_ok {net fx now s st c d}
    (hauth : XtreamCodesApi.ensureAuthenticated s = .ok ())
    (hmiss : cacheHit .vodStreams now s c = false)
    (hN : net.vodStreamsResp c = .ok d) :
    XtreamCodesApi.getVodStreams net fx now s st c
      = (.ok d, { s with vodCache := some ⟨d, now, c⟩ },
         if fx.failSet VOD_CACHE_KEY then st
         else storeSet st VOD_CACHE_KEY (Blob.vod ⟨d, now, c⟩),
         [NetCall.vodStreams c]) := by
  unfold XtreamCodesApi.getVodStreams
  rw [hauth]
  cases hC : s.vodCache with
  | none =>
    by_cases hF : fx.failSet VOD_CACHE_KEY = true <;>
      simp [XtreamCodesApi.fetchVodStreamsMiss, hN,
        XtreamCodesApi.saveVodCache, setItem, hF]
  | some cache =>
    simp only [cacheHit, hC] at hmiss
    by_cases hF : fx.failSet VOD_CACHE_KEY = true <;>
      [skip; skip] <;>
      · simp [XtreamCodesApi.fetchVodStreamsMiss, hN,
          XtreamCodesApi.saveVodCache, setItem, hF]
        intro hv hc
        simp [hv, hc] at hmiss

theorem getSeries_miss_error {net fx now s st c err}
    (hauth : XtreamCodesApi.ensureAuthenticated s = .ok ())
    (hmiss : cacheHit .seriesT now s c = false)
    (hN : net.seriesResp c = .error err) :
    XtreamCodesApi.getSeries net fx now s st c
      = (.error err, s, st, [NetCall.seriesCall c]) := by
  unfold XtreamCodesApi.getSeries
  rw [hauth]
  cases hC : s.seriesCache with
  | none => simp [XtreamCodesApi.fetchSeriesMiss, hN]
  | some cache =>
    simp only [cacheHit, hC] at hmiss
    simp [XtreamCodesApi.fetchSeriesMiss, hN]
    intro hv hc
    simp [hv, hc] at hmiss

theorem getSeries_miss_ok {net fx now s st c d}
    (hauth : XtreamCodesApi.ensureAuthenticated s = .ok ())
    (hmiss : cacheHit .seriesT now s c = false)
    (hN : net.seriesResp c = .ok d) :
    XtreamCodesApi.getSeries net fx now s st c
      = (.ok d, { s with seriesCache := some ⟨d, now, c⟩ },
         if fx.failSet SERIES_CACHE_KEY then st
         else storeSet st SERIES_CACHE_KEY (Blob.seriesB ⟨d, now, c⟩),
         [NetCall.seriesCall c]) := by
  unfold XtreamCodesApi.getSeries
  rw [hauth]
  cases hC : s.seriesCache with
  | none =>
    by_cases hF : fx.failSet SERIES_CACHE_KEY = true <;>
      simp [XtreamCodesApi.fetchSeriesMiss, hN,
        XtreamCodesApi.saveSeriesCache, setItem, hF]
  | some cache =>
    simp only [cacheHit, hC] at hmiss
    by_cases hF : fx.failSet SERIES_CACHE_KEY = true <;>
      [skip; skip] <;>
      · simp [XtreamCodesApi.fetchSeriesMiss, hN,
          XtreamCodesApi.saveSeriesCache, setItem, hF]
        intro hv hc
        simp [hv, hc] at hmiss

theorem getVodCategories_miss_error {net fx now s st err}
    (hauth : XtreamCodesApi.ensureAuthenticated s = .ok ())
    (hmiss : cacheHit .vodCategories now s none = false)
    (hN : net.vodCategoriesResp = .error err) :
    XtreamCodesApi.getVodCategories net fx now s st
      = (.error err, s, st, [NetCall.vodCategories]) := by
  unfold XtreamCodesApi.getVodCategories
  rw [hauth]
  cases hC : s.vodCategoriesCache with
  | none => simp [XtreamCodesApi.fetchVodCategoriesMiss, hN]
  | some cache =>
    simp only [cacheHit, hC] at hmiss
    simp [XtreamCodesApi.fetchVodCategoriesMiss, hN, hmiss]

theorem getVodCategories_miss_ok {net fx now s st d}
    (hauth : XtreamCodesApi.ensureAuthenticated s = .ok ())
    (hmiss : cacheHit .vodCategories now s none = false)
    (hN : net.vodCategoriesResp = .ok d) :
    XtreamCodesApi.getVodCategories net fx now s st
      = (.ok (tagMovie d),
         { s with vodCategoriesCache := some ⟨tagMovie d, now⟩ },
         if fx.failSet VOD_CATEGORIES_CACHE_KEY then st
         else storeSet st VOD_CATEGORIES_CACHE_KEY (Blob.cat ⟨tagMovie d, now⟩),
         [NetCall.vodCategories]) := by
  unfold XtreamCodesApi.getVodCategories
  rw [hauth]
  cases hC : s.vodCategoriesCache with
  | none =>
    by_cases hF : fx.failSet VOD_CATEGORIES_CACHE_KEY = true <;>
      simp [XtreamCodesApi.fetchVodCategoriesMiss, hN, tagMovie,
        XtreamCodesApi.saveVodCategoriesCache, setItem, hF]
  | some cache =>
    simp only [cacheHit, hC] at hmiss
    by_cases hF : fx.failSet VOD_CATEGORIES_CACHE_KEY = true <;>
      simp [XtreamCodesApi.fetchVodCategoriesMiss, hN, tagMovie,
        XtreamCodesApi.saveVodCategoriesCache, setItem, hF, hmiss]

theorem getSeriesCategories_miss_error {net fx now s st err}
    (hauth : XtreamCodesApi.ensureAuthenticated s = .ok ())
    (hmiss : cacheHit .seriesCategories now s none = false)
    (hN : net.seriesCategoriesResp = .error err) :
    XtreamCodesApi.getSeriesCategories net fx now s st
      = (.error err, s, st, [NetCall.seriesCategories]) := by
  unfold XtreamCodesApi.getSeriesCategories
  rw [hauth]
  cases hC : s.seriesCategoriesCache with
  | none => simp [XtreamCodesApi.fetchSeriesCategoriesMiss, hN]
  | some cache =>
    simp only [cacheHit, hC] at hmiss
    simp [XtreamCodesApi.fetchSeriesCategoriesMiss, hN, hmiss]

theorem getSeriesCategories_miss_ok {net fx now s st d}
    (hauth : XtreamCodesApi.ensureAuthenticated s = .ok ())
    (hmiss : cacheHit .seriesCategories now s none = false)
    (hN : net.seriesCategoriesResp = .ok d) :
    XtreamCodesApi.getSeriesCategories net fx now s st
      = (.ok (tagSeries d),
         { s with seriesCategoriesCache := some ⟨tagSeries d, now⟩ },
         if fx.failSet SERIES_CATEGORIES_CACHE_KEY then st
         else storeSet st SERIES_CATEGORIES_CACHE_KEY (Blob.cat ⟨tagSeries d, now⟩),
         [NetCall.seriesCategories]) := by
  unfold XtreamCodesApi.getSeriesCategories
  rw [hauth]
  cases hC : s.seriesCategoriesCache with
  | none =>
    by_cases hF : fx.failSet SERIES_CATEGORIES_CACHE_KEY = true <;>
      simp [XtreamCodesApi.fetchSeriesCategoriesMiss, hN, tagSeries,
        XtreamCodesApi.saveSeriesCategoriesCache, setItem, hF]
  | some cache =>
    simp only [cacheHit, hC] at hmiss
    by_cases hF : fx.failSet SERIES_CATEGORIES_CACHE_KEY = true <;>
      simp [XtreamCodesApi.fetchSeriesCategoriesMiss, hN, tagSeries,
        XtreamCodesApi.saveSeriesCategoriesCache, setItem, hF, hmiss]

/-- Uniform characterization of the hit condition through `cacheSlot`. -/
theorem cacheHit_eq_slot (t : CatalogType) (now : Nat) (s : ApiState)
    (c : Option String) :
    cacheHit t now s c =
      (match cacheSlot t s with
       | some e => XtreamCodesApi.isCacheValid now e.2.1 &&
           (!t.isStream || e.2.2 == c)
       | none => false) := by
  cases t
  case vodStreams =>
    cases hC : s.vodCache <;>
      simp [cacheHit, cacheSlot, CatalogType.isStream, hC]
  case vodCategories =>
    cases hC : s.vodCategoriesCache <;>
      simp [cacheHit, cacheSlot, CatalogType.isStream, hC]
  case seriesT =>
    cases hC : s.seriesCache <;>
      simp [cacheHit, cacheSlot, CatalogType.isStream, hC]
  case seriesCategories =>
    cases hC : s.seriesCategoriesCache <;>
      simp [cacheHit, cacheSlot, CatalogType.isStream, hC]

/-- On a miss the network request for the type and filter is always issued,
whether it succeeds or rejects. -/
theorem fetchCatalog_miss_calls (t : CatalogType) (net : Net) (fx : StoreFx)
    (now : Nat) (s : ApiState) (st : Store) (c : Option String)
    (hauth : XtreamCodesApi.ensureAuthenticated s = .ok ())
    (hmiss : cacheHit t now s c = false) :
    (fetchCatalog t net fx now s st c).2.2.2 = [netCallOf t c] := by
  cases t
  case vodStreams =>
    unfold fetchCatalog
    cases hx : net.vodStreamsResp c with
    | ok d => rw [getVodStreams_miss_ok hauth hmiss hx]; rfl
    | error e => rw [getVodStreams_miss_error hauth hmiss hx]; rfl
  case seriesT =>
    unfold fetchCatalog
    cases hx : net.seriesResp c with
    | ok d => rw [getSeries_miss_ok hauth hmiss hx]; rfl
    | error e => rw [getSeries_miss_error hauth hmiss hx]; rfl
  case vodCategories =>
    unfold fetchCatalog
    cases hx : net.vodCategoriesResp with
    | ok d =>
      rw [getVodCategories_miss_ok hauth (by simpa [cacheHit] using hmiss) hx]; rfl
    | error e =>
      rw [getVodCategories_miss_error hauth (by simpa [cacheHit] using hmiss) hx]; rfl
  case seriesCategories =>
    unfold fetchCatalog
    cases hx : net.seriesCategoriesResp with
    | ok d =>
      rw [getSeriesCategories_miss_ok hauth (by simpa [cacheHit] using hmiss) hx]; rfl
    | error e =>
      rw [getSeriesCategories_miss_error hauth (by simpa [cacheHit] using hmiss) hx]; rfl

/-- On a miss with a successful network response, the fetch returns the
response data, installs a freshly timestamped entry carrying the requested
filter, keeps the session fields, and issues exactly one request. -/
theorem fetchCatalog_miss_ok (t : CatalogType) (net : Net) (fx : StoreFx)
    (now : Nat) (s : ApiState) (st : Store) (c : Option String) (d : CatalogData)
    (hauth : XtreamCodesApi.ensureAuthenticated s = .ok ())
    (hmiss : cacheHit t now s c = false)
    (hnet : netResult t net c = .ok d) :
    (fetchCatalog t net fx now s st c).1 = .ok d ∧
    cacheSlot t (fetchCatalog t net fx now s st c).2.1
      = some (d, now, filterOf t c) ∧
    (fetchCatalog t net fx now s st c).2.1.credentials = s.credentials ∧
    (fetchCatalog t net fx now s st c).2.1.authData = s.authData ∧
    (fetchCatalog t net fx now s st c).2.2.2 = [netCallOf t c] := by
  cases t
  case vodStreams =>
    unfold netResult at hnet
    cases hx : net.vodStreamsResp c with
    | error e => rw [hx] at hnet; simp [Except.map] at hnet
    | ok l =>
      rw [hx] at hnet
      simp only [Except.map, Except.ok.injEq] at hnet
      subst hnet
      unfold fetchCatalog
      rw [getVodStreams_miss_ok hauth hmiss hx]
      simp [cacheSlot, filterOf, CatalogType.isStream, Except.map, netCallOf]
  case seriesT =>
    unfold netResult at hnet
    cases hx : net.seriesResp c with
    | error e => rw [hx] at hnet; simp [Except.map] at hnet
    | ok l =>
      rw [hx] at hnet
      simp only [Except.map, Except.ok.injEq] at hnet
      subst hnet
      unfold fetchCatalog
      rw [getSeries_miss_ok hauth hmiss hx]
      simp [cacheSlot, filterOf, CatalogType.isStream, Except.map, netCallOf]
  case vodCategories =>
    unfold netResult at hnet
    cases hx : net.vodCategoriesResp with
    | error e => rw [hx] at hnet; simp [Except.map] at hnet
    | ok l =>
      rw [hx] at hnet
      simp only [Except.map, Except.ok.injEq] at hnet
      subst hnet
      unfold fetchCatalog
      rw [getVodCategories_miss_ok hauth (by simpa [cacheHit] using hmiss) hx]
      simp [cacheSlot, filterOf, CatalogType.isStream, Except.map, netCallOf, tagMovie]
  case seriesCategories =>
    unfold netResult at hnet
    cases hx : net.seriesCategoriesResp with
    | error e => rw [hx] at hnet; simp [Except.map] at hnet
    | ok l =>
      rw [hx] at hnet
      simp only [Except.map, Except.ok.injEq] at hnet
      subst hnet
      unfold fetchCatalog
      rw [getSeriesCategories_miss_ok hauth (by simpa [cacheHit] using hmiss) hx]
      simp [cacheSlot, filterOf, CatalogType.isStream, Except.map, netCallOf, tagSeries]

/-- Claim C2: the cache is single-slot per type — for stream catalogs, a fetch
whose filter differs from the cached entry's filter (expired or not)
issues the network request and replaces the entry wholesale with one
carrying the new filter, so a later call with the old filter misses and
refetches. -/
theorem filter_mismatch_forces_refetch
    (t : CatalogType) (net : Net) (fx : StoreFx) (now : Nat)
    (s : ApiState) (st : Store) (e : CatalogData × Nat × Option String)
    (c' : Option String) (d : CatalogData)
    (hts : t.isStream = true)
    (hauth : XtreamCodesApi.ensureAuthenticated s = .ok ())
    (he : cacheSlot t s = some e)
    (hne : e.2.2 ≠ c')
    (hnet : netResult t net c' = .ok d) :
    (fetchCatalog t net fx now s st c').1 = .ok d ∧
    (fetchCatalog t net fx now s st c').2.2.2 = [netCallOf t c'] ∧
    cacheSlot t (fetchCatalog t net fx now s st c').2.1 = some (d, now, c') ∧
    (∀ (net2 : Net) (fx2 : StoreFx) (now2 : Nat) (st2 : Store),
      (fetchCatalog t net2 fx2 now2 (fetchCatalog t net fx now s st c').2.1
        st2 e.2.2).2.2.2 = [netCallOf t e.2.2]) := by
  have hmiss : cacheHit t now s c' = false := by
    rw [cacheHit_eq_slot, he]
    simp [hts, hne]
  obtain ⟨h1, h2, h3, h4, h5⟩ := fetchCatalog_miss_ok t net fx now s st c' d
    hauth hmiss hnet
  have hfil : filterOf t c' = c' := by simp [filterOf, hts]
  rw [hfil] at h2
  refine ⟨h1, h5, h2, ?_⟩
  intro net2 fx2 now2 st2
  have hauth2 : XtreamCodesApi.ensureAuthenticated
      (fetchCatalog t net fx now s st c').2.1 = .ok () := by
    unfold XtreamCodesApi.ensureAuthenticated at hauth ⊢
    rw [h3, h4]
    exact hauth
  have hmiss2 : cacheHit t now2 (fetchCatalog t net fx now s st c').2.1 e.2.2
      = false := by
    rw [cacheHit_eq_slot, h2]
    simp [hts]
    intro h
    exact fun hc => hne (hc ▸ rfl)
  exact fetchCatalog_miss_calls t net2 fx2 now2 _ st2 e.2.2 hauth2 hmiss2

theorem filter_mismatch_forces_refetch_witness :
    ((fetchCatalog .vodStreams sampleNet noFail 3 warmState emptyStore
        (some "6")).1 = .ok (.movies [m2]) ∧
      (fetchCatalog .vodStreams sampleNet noFail 3 warmState emptyStore
        (some "6")).2.2.2 = [.vodStreams (some "6")] ∧
      cacheSlot .vodStreams
        (fetchCatalog .vodStreams sampleNet noFail 3 warmState emptyStore
          (some "6")).2.1 = some (.movies [m2], 3, some "6")) ∧
    (fetchCatalog .vodStreams sampleNet noFail 4
      (fetchCatalog .vodStreams sampleNet noFail 3 warmState emptyStore
        (some "6")).2.1 emptyStore (some "5")).2.2.2
      = [.vodStreams (some "5")] := by
  have h := filter_mismatch_forces_refetch .vodStreams sampleNet noFail 3
    warmState emptyStore (.movies [m1], 0, some "5") (some "6") (.movies [m2])
    rfl rfl rfl (by decide) rfl
  exact ⟨⟨h.1, h.2.1, h.2.2.1⟩, h.2.2.2 sampleNet noFail 4 emptyStore⟩

/-- Claim C3: the TTL is the fixed constant 24 h = 86 400 000 ms, validity is the
strict comparison `now - timestamp < TTL`, and an entry aged `TTL + 1` ms
or more is invalid: the fetch issues the network request even with a
matching filter. -/
theorem cache_ttl_strict_24h :
    CACHE_EXPIRY_TIME = 86400000 ∧
    (∀ now ts : Nat, XtreamCodesApi.isCacheValid now ts = true ↔
      (now : Int) - (ts : Int) < (CACHE_EXPIRY_TIME : Int)) ∧
    (∀ (t : CatalogType) (net : Net) (fx : StoreFx) (now : Nat) (s : ApiState)
      (st : Store) (c : Option String) (e : CatalogData × Nat × Option String),
      XtreamCodesApi.ensureAuthenticated s = .ok () →
      cacheSlot t s = some e →
      (e.2.1 : Int) ≤ (now : Int) - ((CACHE_EXPIRY_TIME : Int) + 1) →
      e.2.2 = c →
      (fetchCatalog t net fx now s st c).2.2.2 = [netCallOf t c]) := by
  refine ⟨rfl, fun now ts => by simp [XtreamCodesApi.isCacheValid], ?_⟩
  intro t net fx now s st c e hauth he hold hc
  have hinv : XtreamCodesApi.isCacheValid now e.2.1 = false := by
    simp only [XtreamCodesApi.isCacheValid, decide_eq_false_iff_not, not_lt]
    omega
  have hmiss : cacheHit t now s c = false := by
    rw [cacheHit_eq_slot, he]
    simp [hinv]
  exact fetchCatalog_miss_calls t net fx now s st c hauth hmiss

theorem cache_ttl_strict_24h_witness :
    (fetchCatalog .vodStreams sampleNet noFail 86400001
      warmState emptyStore (some "5")).2.2.2 = [.vodStreams (some "5")] :=
  cache_ttl_strict_24h.2.2 .vodStreams sampleNet noFail 86400001 warmState
    emptyStore (some "5") (.movies [m1], 0, some "5") rfl rfl (by decide) rfl

/-- Claim C4: when the network call made on a miss rejects, the same error
propagates to the caller and neither the in-memory entries nor the
persisted store change — the stale entry is not served. -/
theorem fetch_failure_leaves_cache_untouched
    (t : CatalogType) (net : Net) (fx : StoreFx) (now : Nat)
    (s : ApiState) (st : Store) (c : Option String) (err : JsError)
    (hauth : XtreamCodesApi.ensureAuthenticated s = .ok ())
    (hmiss : cacheHit t now s c = false)
    (hnet : netResult t net c = .error err) :
    fetchCatalog t net fx now s st c = (.error err, s, st, [netCallOf t c]) := by
  cases t
  case vodStreams =>
    have hN : net.vodStreamsResp c = .error err := by
      unfold netResult at hnet
      cases hx : net.vodStreamsResp c with
      | ok l => rw [hx] at hnet; simp [Except.map] at hnet
      | error e => rw [hx] at hnet; simp [Except.map] at hnet; rw [hnet]
    unfold fetchCatalog
    rw [getVodStreams_miss_error hauth hmiss hN]; rfl
  case seriesT =>
    have hN : net.seriesResp c = .error err := by
      unfold netResult at hnet
      cases hx : net.seriesResp c with
      | ok l => rw [hx] at hnet; simp [Except.map] at hnet
      | error e => rw [hx] at hnet; simp [Except.map] at hnet; rw [hnet]
    unfold fetchCatalog
    rw [getSeries_miss_error hauth hmiss hN]; rfl
  case vodCategories =>
    have hN : net.vodCategoriesResp = .error err := by
      unfold netResult at hnet
      cases hx : net.vodCategoriesResp with
      | ok l => rw [hx] at hnet; simp [Except.map] at hnet
      | error e => rw [hx] at hnet; simp [Except.map] at hnet; rw [hnet]
    unfold fetchCatalog
    rw [getVodCategories_miss_error hauth (by simpa [cacheHit] using hmiss) hN]
    rfl
  case seriesCategories =>
    have hN : net.seriesCategoriesResp = .error err := by
      unfold netResult at hnet
      cases hx : net.seriesCategoriesResp with
      | ok l => rw [hx] at hnet; simp [Except.map] at hnet
      | error e => rw [hx] at hnet; simp [Except.map] at hnet; rw [hnet]
    unfold fetchCatalog
    rw [getSeriesCategories_miss_error hauth (by simpa [cacheHit] using hmiss) hN]
    rfl

theorem fetch_failure_leaves_cache_untouched_witness :
    fetchCatalog .vodStreams downNet noFail 86400001 warmState emptyStore
      (some "5")
    = (.error (.netFail "down"), warmState, emptyStore,
       [.vodStreams (some "5")]) :=
  fetch_failure_leaves_cache_untouched .vodStreams downNet noFail 86400001
    warmState emptyStore (some "5") (.netFail "down") rfl (by decide) rfl

/-- With no `removeItem` rejections, `removeSeq` succeeds and removes the
keys in order. -/
theorem removeSeq_noFail {fx : StoreFx} (h : ∀ k, fx.failRemove k = false) :
    ∀ (ks : List String) (st : Store),
      removeSeq fx st ks = (none, ks.foldl storeRemove st) := by
  intro ks
  induction ks with
  | nil => intro st; rfl
  | cons k rest ih => intro st; simp [removeSeq, h k, ih]

/-- `getLiveStreams` never changes state or store and issues exactly one
request when authenticated. -/
theorem getLiveStreams_components (net : Net) (s : ApiState) (st : Store)
    (c : Option String)
    (hauth : XtreamCodesApi.ensureAuthenticated s = .ok ()) :
    (XtreamCodesApi.getLiveStreams net s st c).2.1 = s ∧
    (XtreamCodesApi.getLiveStreams net s st c).2.2.1 = st ∧
    (XtreamCodesApi.getLiveStreams net s st c).2.2.2
      = [NetCall.liveStreams c] := by
  unfold XtreamCodesApi.getLiveStreams
  rw [hauth]
  cases net.liveStreamsResp c <;> simp

/-- Claim C5 counterexample: on a live instance `clearCache()` issues requests
for live streams, VOD streams and series only — it never re-fetches the
VOD categories or series categories catalogs, whose entries stay empty. -/
theorem clearCache_skips_category_rewarm :
    (XtreamCodesApi.clearCache sampleNet noFail 0 warmState emptyStore).2.2.2
      = [.liveStreams none, .vodStreams none, .seriesCall none] ∧
    NetCall.vodCategories ∉
      (XtreamCodesApi.clearCache sampleNet noFail 0 warmState emptyStore).2.2.2 ∧
    NetCall.seriesCategories ∉
      (XtreamCodesApi.clearCache sampleNet noFail 0 warmState emptyStore).2.2.2 ∧
    (XtreamCodesApi.clearCache sampleNet noFail 0 warmState
      emptyStore).2.1.vodCategoriesCache = none ∧
    (XtreamCodesApi.clearCache sampleNet noFail 0 warmState
      emptyStore).2.1.seriesCategoriesCache = none :=
  ⟨rfl, by decide, by decide, rfl, rfl⟩

theorem storeGet_set_vod_vodcat (K : Store) (b : Blob) :
    storeGet (storeSet K VOD_CACHE_KEY b) VOD_CATEGORIES_CACHE_KEY
      = storeGet K VOD_CATEGORIES_CACHE_KEY := storeGet_set_other _ _ (by decide)

theorem storeGet_set_vod_series (K : Store) (b : Blob) :
    storeGet (storeSet K VOD_CACHE_KEY b) SERIES_CACHE_KEY
      = storeGet K SERIES_CACHE_KEY := storeGet_set_other _ _ (by decide)

theorem storeGet_set_vod_seriescat (K : Store) (b : Blob) :
    storeGet (storeSet K VOD_CACHE_KEY b) SERIES_CATEGORIES_CACHE_KEY
      = storeGet K SERIES_CATEGORIES_CACHE_KEY := storeGet_set_other _ _ (by decide)

theorem storeGet_set_series_vod (K : Store) (b : Blob) :
    storeGet (storeSet K SERIES_CACHE_KEY b) VOD_CACHE_KEY
      = storeGet K VOD_CACHE_KEY := storeGet_set_other _ _ (by decide)

theorem storeGet_set_series_vodcat (K : Store) (b : Blob) :
    storeGet (storeSet K SERIES_CACHE_KEY b) VOD_CATEGORIES_CACHE_KEY
      = storeGet K VOD_CATEGORIES_CACHE_KEY := storeGet_set_other _ _ (by decide)

theorem storeGet_set_series_seriescat (K : Store) (b : Blob) :
    storeGet (storeSet K SERIES_CACHE_KEY b) SERIES_CATEGORIES_CACHE_KEY
      = storeGet K SERIES_CATEGORIES_CACHE_KEY :=
  storeGet_set_other _ _ (by decide)

/-- Claim C5 (amended): `clearCache()` clears all four in-memory entries,
removes all four persisted keys, and resolves; with a live session it
then re-fetches live streams, VOD streams and series (not the category
catalogs), best-effort: a rejection of one re-fetch leaves its slot empty
without aborting the others or rejecting the call.  Afterwards the two
category keys are absent from the store, and each streams key holds
exactly the freshly rewarmed entry when its re-fetch and persist
succeeded, and is absent otherwise — never the old blob. -/
theorem clearCache_resolves_best_effort
    (net : Net) (fx : StoreFx) (now : Nat) (s : ApiState) (st : Store)
    (hrm : ∀ k, fx.failRemove k = false)
    (hcred : s.credentials.isSome = true)
    (hdata : s.authData.isSome = true) :
    (XtreamCodesApi.clearCache net fx now s st).1 = .ok () ∧
    (XtreamCodesApi.clearCache net fx now s st).2.2.2
      = [.liveStreams none, .vodStreams none, .seriesCall none] ∧
    (XtreamCodesApi.clearCache net fx now s st).2.1.vodCategoriesCache = none ∧
    (XtreamCodesApi.clearCache net fx now s st).2.1.seriesCategoriesCache = none ∧
    (XtreamCodesApi.clearCache net fx now s st).2.1.vodCache
      = (match net.vodStreamsResp none with
         | .ok d => some ⟨d, now, none⟩
         | .error _ => none) ∧
    (XtreamCodesApi.clearCache net fx now s st).2.1.seriesCache
      = (match net.seriesResp none with
         | .ok d => some ⟨d, now, none⟩
         | .error _ => none) ∧
    storeGet (XtreamCodesApi.clearCache net fx now s st).2.2.1
      VOD_CATEGORIES_CACHE_KEY = none ∧
    storeGet (XtreamCodesApi.clearCache net fx now s st).2.2.1
      SERIES_CATEGORIES_CACHE_KEY = none ∧
    storeGet (XtreamCodesApi.clearCache net fx now s st).2.2.1 VOD_CACHE_KEY
      = (match net.vodStreamsResp none with
         | .ok d => if fx.failSet VOD_CACHE_KEY then none
             else some (Blob.vod ⟨d, now, none⟩)
         | .error _ => none) ∧
    storeGet (XtreamCodesApi.clearCache net fx now s st).2.2.1 SERIES_CACHE_KEY
      = (match net.seriesResp none with
         | .ok d => if fx.failSet SERIES_CACHE_KEY then none
             else some (Blob.seriesB ⟨d, now, none⟩)
         | .error _ => none) := by
  have hA1 : XtreamCodesApi.ensureAuthenticated
      { s with vodCache := none, vodCategoriesCache := none,
               seriesCache := none, seriesCategoriesCache := none } = .ok () := by
    unfold XtreamCodesApi.ensureAuthenticated
    simp [hcred, hdata]
  have h0v : storeGet (storeRemove (storeRemove (storeRemove (storeRemove st
      VOD_CACHE_KEY) VOD_CATEGORIES_CACHE_KEY) SERIES_CACHE_KEY)
      SERIES_CATEGORIES_CACHE_KEY) VOD_CACHE_KEY = none := by
    simpa using storeGet_foldl_remove_mem [VOD_CACHE_KEY,
      VOD_CATEGORIES_CACHE_KEY, SERIES_CACHE_KEY, SERIES_CATEGORIES_CACHE_KEY]
      st VOD_CACHE_KEY (by simp)
  have h0vc : storeGet (storeRemove (storeRemove (storeRemove (storeRemove st
      VOD_CACHE_KEY) VOD_CATEGORIES_CACHE_KEY) SERIES_CACHE_KEY)
      SERIES_CATEGORIES_CACHE_KEY) VOD_CATEGORIES_CACHE_KEY = none := by
    simpa using storeGet_foldl_remove_mem [VOD_CACHE_KEY,
      VOD_CATEGORIES_CACHE_KEY, SERIES_CACHE_KEY, SERIES_CATEGORIES_CACHE_KEY]
      st VOD_CATEGORIES_CACHE_KEY (by simp)
  have h0s : storeGet (storeRemove (storeRemove (storeRemove (storeRemove st
      VOD_CACHE_KEY) VOD_CATEGORIES_CACHE_KEY) SERIES_CACHE_KEY)
      SERIES_CATEGORIES_CACHE_KEY) SERIES_CACHE_KEY = none := by
    simpa using storeGet_foldl_remove_mem [VOD_CACHE_KEY,
      VOD_CATEGORIES_CACHE_KEY, SERIES_CACHE_KEY, SERIES_CATEGORIES_CACHE_KEY]
      st SERIES_CACHE_KEY (by simp)
  have h0sc : storeGet (storeRemove (storeRemove (storeRemove (storeRemove st
      VOD_CACHE_KEY) VOD_CATEGORIES_CACHE_KEY) SERIES_CACHE_KEY)
      SERIES_CATEGORIES_CACHE_KEY) SERIES_CATEGORIES_CACHE_KEY = none := by
    simpa using storeGet_foldl_remove_mem [VOD_CACHE_KEY,
      VOD_CATEGORIES_CACHE_KEY, SERIES_CACHE_KEY, SERIES_CATEGORIES_CACHE_KEY]
      st SERIES_CATEGORIES_CACHE_KEY (by simp)
  unfold XtreamCodesApi.clearCache
  rw [removeSeq_noFail hrm]
  simp only [hcred, hdata, Bool.and_self, if_true]
  obtain ⟨hL1, hL2, hL3⟩ := getLiveStreams_components net _
    ([VOD_CACHE_KEY, VOD_CATEGORIES_CACHE_KEY, SERIES_CACHE_KEY,
      SERIES_CATEGORIES_CACHE_KEY].foldl storeRemove st) none hA1
  rw [hL1, hL2, hL3]
  rcases hV : net.vodStreamsResp none with eV | dV <;>
    rcases hS : net.seriesResp none with eS | dS
  · rw [getVodStreams_miss_error hA1 (by simp [cacheHit]) hV]
    rw [getSeries_miss_error hA1 (by simp [cacheHit]) hS]
    simp [h0v, h0vc, h0s, h0sc]
  · rw [getVodStreams_miss_error hA1 (by simp [cacheHit]) hV]
    rw [getSeries_miss_ok hA1 (by simp [cacheHit]) hS]
    by_cases hFS : fx.failSet SERIES_CACHE_KEY = true <;>
      simp [hFS, h0v, h0vc, h0s, h0sc, storeGet_set_self,
        storeGet_set_series_vod, storeGet_set_series_vodcat,
        storeGet_set_series_seriescat]
  · rw [getVodStreams_miss_ok hA1 (by simp [cacheHit]) hV]
    rw [getSeries_miss_error (by
        unfold XtreamCodesApi.ensureAuthenticated
        simp [hcred, hdata]) (by simp [cacheHit]) hS]
    by_cases hFV : fx.failSet VOD_CACHE_KEY = true <;>
      simp [hFV, h0v, h0vc, h0s, h0sc, storeGet_set_self,
        storeGet_set_vod_vodcat, storeGet_set_vod_series,
        storeGet_set_vod_seriescat]
  · rw [getVodStreams_miss_ok hA1 (by simp [cacheHit]) hV]
    rw [getSeries_miss_ok (by
        unfold XtreamCodesApi.ensureAuthenticated
        simp [hcred, hdata]) (by simp [cacheHit]) hS]
    by_cases hFV : fx.failSet VOD_CACHE_KEY = true <;>
      by_cases hFS : fx.failSet SERIES_CACHE_KEY = true <;>
      simp [hFV, hFS, h0v, h0vc, h0s, h0sc, storeGet_set_self,
        storeGet_set_vod_vodcat, storeGet_set_vod_series,
        storeGet_set_vod_seriescat, storeGet_set_series_vod,
        storeGet_set_series_vodcat, storeGet_set_series_seriescat]

theorem clearCache_resolves_best_effort_witness :
    (XtreamCodesApi.clearCache seriesDownNet noFail 9 warmState emptyStore).1
      = .ok () ∧
    (XtreamCodesApi.clearCache seriesDownNet noFail 9 warmState
      emptyStore).2.2.2
      = [.liveStreams none, .vodStreams none, .seriesCall none] ∧
    (XtreamCodesApi.clearCache seriesDownNet noFail 9 warmState
      emptyStore).2.1.vodCategoriesCache = none ∧
    (XtreamCodesApi.clearCache seriesDownNet noFail 9 warmState
      emptyStore).2.1.seriesCategoriesCache = none ∧
    (XtreamCodesApi.clearCache seriesDownNet noFail 9 warmState
      emptyStore).2.1.vodCache
      = (match seriesDownNet.vodStreamsResp none with
         | .ok d => some ⟨d, 9, none⟩
         | .error _ => none) ∧
    (XtreamCodesApi.clearCache seriesDownNet noFail 9 warmState
      emptyStore).2.1.seriesCache
      = (match seriesDownNet.seriesResp none with
         | .ok d => some ⟨d, 9, none⟩
         | .error _ => none) ∧
    storeGet (XtreamCodesApi.clearCache seriesDownNet noFail 9 warmState
      emptyStore).2.2.1 VOD_CATEGORIES_CACHE_KEY = none ∧
    storeGet (XtreamCodesApi.clearCache seriesDownNet noFail 9 warmState
      emptyStore).2.2.1 SERIES_CATEGORIES_CACHE_KEY = none ∧
    storeGet (XtreamCodesApi.clearCache seriesDownNet noFail 9 warmState
      emptyStore).2.2.1 VOD_CACHE_KEY
      = (match seriesDownNet.vodStreamsResp none with
         | .ok d => if noFail.failSet VOD_CACHE_KEY then none
             else some (Blob.vod ⟨d, 9, none⟩)
         | .error _ => none) ∧
    storeGet (XtreamCodesApi.clearCache seriesDownNet noFail 9 warmState
      emptyStore).2.2.1 SERIES_CACHE_KEY
      = (match seriesDownNet.seriesResp none with
         | .ok d => if noFail.failSet SERIES_CACHE_KEY then none
             else some (Blob.seriesB ⟨d, 9, none⟩)
         | .error _ => none) :=
  clearCache_resolves_best_effort seriesDownNet noFail 9 warmState emptyStore
    (fun _ => rfl) rfl rfl

/-- Claim C6 counterexample: with a malformed VOD blob and a perfectly
parseable series blob persisted, `loadCaches` restores nothing — the
parse failure of the VOD key prevents the series entry from being
restored, so the keys are not independent. -/
theorem loadCaches_keys_not_independent :
    storeGet storeGarbageVod SERIES_CACHE_KEY
      = some (Blob.seriesB ⟨[ser1], 0, none⟩) ∧
    (XtreamCodesApi.loadCaches noFail storeGarbageVod initState).seriesCache
      = none :=
  ⟨rfl, rfl⟩

/-- Claim C6 (amended): `loadCaches()` reads the four keys in one joint batch
under a single catch: a read failure on any key restores nothing; parsing
and assignment then run in the fixed order VOD, VOD categories, series,
series categories, and a parse failure keeps the entries already assigned
and skips the rest; if every present blob parses, each becomes the
initial in-memory entry. -/
theorem loadCaches_batch_restore :
    (∀ (fx : StoreFx) (st : Store) (s : ApiState),
      (fx.failGet VOD_CACHE_KEY || fx.failGet VOD_CATEGORIES_CACHE_KEY ||
       fx.failGet SERIES_CACHE_KEY ||
       fx.failGet SERIES_CATEGORIES_CACHE_KEY) = true →
      XtreamCodesApi.loadCaches fx st s = s) ∧
    (∀ (fx : StoreFx) (st : Store) (s : ApiState) e1 e2 e3 e4,
      (∀ k, fx.failGet k = false) →
      storeGet st VOD_CACHE_KEY = some (Blob.vod e1) →
      storeGet st VOD_CATEGORIES_CACHE_KEY = some (Blob.cat e2) →
      storeGet st SERIES_CACHE_KEY = some (Blob.seriesB e3) →
      storeGet st SERIES_CATEGORIES_CACHE_KEY = some (Blob.cat e4) →
      XtreamCodesApi.loadCaches fx st s
        = { s with vodCache := some e1, vodCategoriesCache := some e2,
                   seriesCache := some e3, seriesCategoriesCache := some e4 }) ∧
    (∀ (fx : StoreFx) (st : Store) (s : ApiState) e1,
      (∀ k, fx.failGet k = false) →
      storeGet st VOD_CACHE_KEY = some (Blob.vod e1) →
      storeGet st VOD_CATEGORIES_CACHE_KEY = some Blob.garbage →
      XtreamCodesApi.loadCaches fx st s = { s with vodCache := some e1 }) := by
  refine ⟨?_, ?_, ?_⟩
  · intro fx st s h
    simp only [XtreamCodesApi.loadCaches, h, if_true]
  · intro fx st s e1 e2 e3 e4 hg h1 h2 h3 h4
    simp [XtreamCodesApi.loadCaches, XtreamCodesApi.loadCachesStep2,
      XtreamCodesApi.loadCachesStep3, XtreamCodesApi.loadCachesStep4,
      hg VOD_CACHE_KEY, hg VOD_CATEGORIES_CACHE_KEY, hg SERIES_CACHE_KEY,
      hg SERIES_CATEGORIES_CACHE_KEY, h1, h2, h3, h4,
      XtreamCodesApi.parseVodBlob, XtreamCodesApi.parseCatBlob,
      XtreamCodesApi.parseSeriesBlob]
  · intro fx st s e1 hg h1 h2
    simp [XtreamCodesApi.loadCaches, XtreamCodesApi.loadCachesStep2,
      hg VOD_CACHE_KEY, hg VOD_CATEGORIES_CACHE_KEY, hg SERIES_CACHE_KEY,
      hg SERIES_CATEGORIES_CACHE_KEY, h1, h2,
      XtreamCodesApi.parseVodBlob, XtreamCodesApi.parseCatBlob]

theorem loadCaches_batch_restore_witness :
    XtreamCodesApi.loadCaches noFail storeFull initState
      = { initState with
          vodCache := some ⟨[m1], 1, some "5"⟩,
          vodCategoriesCache := some ⟨[cat1], 2⟩,
          seriesCache := some ⟨[ser1], 3, none⟩,
          seriesCategoriesCache := some ⟨[cat1], 4⟩ } :=
  loadCaches_batch_restore.2.1 noFail storeFull initState
    ⟨[m1], 1, some "5"⟩ ⟨[cat1], 2⟩ ⟨[ser1], 3, none⟩ ⟨[cat1], 4⟩
    (fun _ => rfl) rfl rfl rfl rfl

/-- Claim C7 counterexample: a rejected `removeItem` inside `logout()` is not
caught — the key-value-store failure propagates to the caller of the
cache-manager operation. -/
theorem persistence_failure_propagates_from_logout :
    (XtreamCodesApi.logout fxFailAuthRemove warmState emptyStore).1
      = .error (.storeFail AUTH_STORAGE_KEY) :=
  rfl

/-- Claim C7 (amended): store failures in the four save operations are absorbed
and never block the in-memory update (the entry is installed for any
`setItem` outcome), but a rejected `removeItem` during `logout()` or
`clearCache()` propagates to the caller — with the in-memory clearing
already done. -/
theorem persistence_failure_scoped :
    (∀ (fx : StoreFx) (now : Nat) (s : ApiState) (st : Store) d c,
      (XtreamCodesApi.saveVodCache fx now s st d c).1.vodCache
        = some ⟨d, now, c⟩) ∧
    (∀ (fx : StoreFx) (now : Nat) (s : ApiState) (st : Store) d,
      (XtreamCodesApi.saveVodCategoriesCache fx now s st d).1.vodCategoriesCache
        = some ⟨d, now⟩) ∧
    (∀ (fx : StoreFx) (now : Nat) (s : ApiState) (st : Store) d c,
      (XtreamCodesApi.saveSeriesCache fx now s st d c).1.seriesCache
        = some ⟨d, now, c⟩) ∧
    (∀ (fx : StoreFx) (now : Nat) (s : ApiState) (st : Store) d,
      (XtreamCodesApi.saveSeriesCategoriesCache fx now s st
        d).1.seriesCategoriesCache = some ⟨d, now⟩) ∧
    (∀ (fx : StoreFx) (s : ApiState) (st : Store),
      fx.failRemove AUTH_STORAGE_KEY = true →
      (XtreamCodesApi.logout fx s st).1 = .error (.storeFail AUTH_STORAGE_KEY) ∧
      (XtreamCodesApi.logout fx s st).2.1 = initState) ∧
    (∀ (net : Net) (fx : StoreFx) (now : Nat) (s : ApiState) (st : Store),
      fx.failRemove VOD_CACHE_KEY = true →
      (XtreamCodesApi.clearCache net fx now s st).1
        = .error (.storeFail VOD_CACHE_KEY) ∧
      (XtreamCodesApi.clearCache net fx now s st).2.1.vodCache = none ∧
      (XtreamCodesApi.clearCache net fx now s st).2.1.vodCategoriesCache = none ∧
      (XtreamCodesApi.clearCache net fx now s st).2.1.seriesCache = none ∧
      (XtreamCodesApi.clearCache net fx now s st).2.1.seriesCategoriesCache
        = none) := by
  refine ⟨?_, ?_, ?_, ?_, ?_, ?_⟩
  · intro fx now s st d c
    unfold XtreamCodesApi.saveVodCache setItem
    by_cases hF : fx.failSet VOD_CACHE_KEY = true <;> simp [hF]
  · intro fx now s st d
    unfold XtreamCodesApi.saveVodCategoriesCache setItem
    by_cases hF : fx.failSet VOD_CATEGORIES_CACHE_KEY = true <;> simp [hF]
  · intro fx now s st d c
    unfold XtreamCodesApi.saveSeriesCache setItem
    by_cases hF : fx.failSet SERIES_CACHE_KEY = true <;> simp [hF]
  · intro fx now s st d
    unfold XtreamCodesApi.saveSeriesCategoriesCache setItem
    by_cases hF : fx.failSet SERIES_CATEGORIES_CACHE_KEY = true <;> simp [hF]
  · intro fx s st h
    unfold XtreamCodesApi.logout
    simp [removeSeq, h, initState]
  · intro net fx now s st h
    unfold XtreamCodesApi.clearCache
    simp [removeSeq, h]

theorem persistence_failure_scoped_witness :
    (XtreamCodesApi.saveVodCache fxFailAllSet 7 authedState emptyStore [m1]
      (some "5")).1.vodCache = some ⟨[m1], 7, some "5"⟩ ∧
    (XtreamCodesApi.logout fxFailAuthRemove warmState emptyStore).2.1
      = initState :=
  ⟨persistence_failure_scoped.1 fxFailAllSet 7 authedState emptyStore [m1]
      (some "5"),
   (persistence_failure_scoped.2.2.2.2.1 fxFailAuthRemove warmState emptyStore
      rfl).2⟩

/-- Claim C8: round-trip through persistence — a successful fetch writes its
entry under the type's key; a fresh instance restoring from that store
reproduces the same data and timestamp in memory, and a fetch within the
TTL with the matching filter returns it with no network call. -/
theorem cache_restore_round_trip
    (t : CatalogType) (net net2 : Net) (fx fx' fx2 : StoreFx)
    (now now2 : Nat) (s : ApiState) (c : Option String) (d : CatalogData)
    (cr : XtreamCredentials) (au : AuthResponse)
    (hauth : XtreamCodesApi.ensureAuthenticated s = .ok ())
    (hmiss : cacheHit t now s c = false)
    (hnet : netResult t net c = .ok d)
    (hset : fx.failSet (keyOf t) = false)
    (hget : ∀ k, fx'.failGet k = false)
    (hv : XtreamCodesApi.isCacheValid now2 now = true) :
    cacheSlot t (XtreamCodesApi.loadCaches fx'
        (fetchCatalog t net fx now s emptyStore c).2.2.1
        { initState with credentials := some cr, authData := some au })
      = some (d, now, filterOf t c) ∧
    fetchCatalog t net2 fx2 now2
      (XtreamCodesApi.loadCaches fx'
        (fetchCatalog t net fx now s emptyStore c).2.2.1
        { initState with credentials := some cr, authData := some au })
      (fetchCatalog t net fx now s emptyStore c).2.2.1 (filterOf t c)
      = (.ok d,
         XtreamCodesApi.loadCaches fx'
          (fetchCatalog t net fx now s emptyStore c).2.2.1
          { initState with credentials := some cr, authData := some au },
         (fetchCatalog t net fx now s emptyStore c).2.2.1, []) := by
  cases t
  case vodStreams =>
    unfold netResult at hnet
    cases hx : net.vodStreamsResp c with
    | error e => rw [hx] at hnet; simp [Except.map] at hnet
    | ok l =>
      rw [hx] at hnet
      simp only [Except.map, Except.ok.injEq] at hnet
      subst hnet
      have hset' : fx.failSet VOD_CACHE_KEY = false := hset
      have hst1 : (fetchCatalog .vodStreams net fx now s emptyStore c).2.2.1
          = storeSet emptyStore VOD_CACHE_KEY (Blob.vod ⟨l, now, c⟩) := by
        unfold fetchCatalog
        rw [getVodStreams_miss_ok hauth hmiss hx]
        simp [hset']
      rw [hst1]
      have hg1 : storeGet (storeSet emptyStore VOD_CACHE_KEY
          (Blob.vod ⟨l, now, c⟩)) VOD_CACHE_KEY
          = some (Blob.vod ⟨l, now, c⟩) := storeGet_set_self _ _ _
      have hg2 : storeGet (storeSet emptyStore VOD_CACHE_KEY
          (Blob.vod ⟨l, now, c⟩)) VOD_CATEGORIES_CACHE_KEY = none := by
        rw [storeGet_set_other _ _ (by decide)]; rfl
      have hg3 : storeGet (storeSet emptyStore VOD_CACHE_KEY
          (Blob.vod ⟨l, now, c⟩)) SERIES_CACHE_KEY = none := by
        rw [storeGet_set_other _ _ (by decide)]; rfl
      have hg4 : storeGet (storeSet emptyStore VOD_CACHE_KEY
          (Blob.vod ⟨l, now, c⟩)) SERIES_CATEGORIES_CACHE_KEY = none := by
        rw [storeGet_set_other _ _ (by decide)]; rfl
      have hs2 : XtreamCodesApi.loadCaches fx'
          (storeSet emptyStore VOD_CACHE_KEY (Blob.vod ⟨l, now, c⟩))
          { initState with credentials := some cr, authData := some au }
          = { initState with
              credentials := some cr, authData := some au,
              vodCache := some ⟨l, now, c⟩ } := by
        simp [XtreamCodesApi.loadCaches, XtreamCodesApi.loadCachesStep2,
          XtreamCodesApi.loadCachesStep3, XtreamCodesApi.loadCachesStep4,
          hget VOD_CACHE_KEY, hget VOD_CATEGORIES_CACHE_KEY,
          hget SERIES_CACHE_KEY, hget SERIES_CATEGORIES_CACHE_KEY,
          hg1, hg2, hg3, hg4, XtreamCodesApi.parseVodBlob]
      rw [hs2]
      refine ⟨by simp [cacheSlot, filterOf, CatalogType.isStream], ?_⟩
      have hauth2 : XtreamCodesApi.ensureAuthenticated
          { initState with
            credentials := some cr, authData := some au,
            vodCache := some ⟨l, now, c⟩ } = .ok () := by
        simp [XtreamCodesApi.ensureAuthenticated, initState]
      unfold fetchCatalog
      rw [show filterOf CatalogType.vodStreams c = c from rfl]
      rw [getVodStreams_hit hauth2 rfl hv rfl]; rfl
  case seriesT =>
    unfold netResult at hnet
    cases hx : net.seriesResp c with
    | error e => rw [hx] at hnet; simp [Except.map] at hnet
    | ok l =>
      rw [hx] at hnet
      simp only [Except.map, Except.ok.injEq] at hnet
      subst hnet
      have hset' : fx.failSet SERIES_CACHE_KEY = false := hset
      have hst1 : (fetchCatalog .seriesT net fx now s emptyStore c).2.2.1
          = storeSet emptyStore SERIES_CACHE_KEY (Blob.seriesB ⟨l, now, c⟩) := by
        unfold fetchCatalog
        rw [getSeries_miss_ok hauth hmiss hx]
        simp [hset']
      rw [hst1]
      have hg1 : storeGet (storeSet emptyStore SERIES_CACHE_KEY
          (Blob.seriesB ⟨l, now, c⟩)) SERIES_CACHE_KEY
          = some (Blob.seriesB ⟨l, now, c⟩) := storeGet_set_self _ _ _
      have hg2 : storeGet (storeSet emptyStore SERIES_CACHE_KEY
          (Blob.seriesB ⟨l, now, c⟩)) VOD_CACHE_KEY = none := by
        rw [storeGet_set_other _ _ (by decide)]; rfl
      have hg3 : storeGet (storeSet emptyStore SERIES_CACHE_KEY
          (Blob.seriesB ⟨l, now, c⟩)) VOD_CATEGORIES_CACHE_KEY = none := by
        rw [storeGet_set_other _ _ (by decide)]; rfl
      have hg4 : storeGet (storeSet emptyStore SERIES_CACHE_KEY
          (Blob.seriesB ⟨l, now, c⟩)) SERIES_CATEGORIES_CACHE_KEY = none := by
        rw [storeGet_set_other _ _ (by decide)]; rfl
      have hs2 : XtreamCodesApi.loadCaches fx'
          (storeSet emptyStore SERIES_CACHE_KEY (Blob.seriesB ⟨l, now, c⟩))
          { initState with credentials := some cr, authData := some au }
          = { initState with
              credentials := some cr, authData := some au,
              seriesCache := some ⟨l, now, c⟩ } := by
        simp [XtreamCodesApi.loadCaches, XtreamCodesApi.loadCachesStep2,
          XtreamCodesApi.loadCachesStep3, XtreamCodesApi.loadCachesStep4,
          hget VOD_CACHE_KEY, hget VOD_CATEGORIES_CACHE_KEY,
          hget SERIES_CACHE_KEY, hget SERIES_CATEGORIES_CACHE_KEY,
          hg1, hg2, hg3, hg4, XtreamCodesApi.parseSeriesBlob]
      rw [hs2]
      refine ⟨by simp [cacheSlot, filterOf, CatalogType.isStream], ?_⟩
      have hauth2 : XtreamCodesApi.ensureAuthenticated
          { initState with
            credentials := some cr, authData := some au,
            seriesCache := some ⟨l, now, c⟩ } = .ok () := by
        simp [XtreamCodesApi.ensureAuthenticated, initState]
      unfold fetchCatalog
      rw [show filterOf CatalogType.seriesT c = c from rfl]
      rw [getSeries_hit hauth2 rfl hv rfl]; rfl
  case vodCategories =>
    unfold netResult at hnet
    cases hx : net.vodCategoriesResp with
    | error e => rw [hx] at hnet; simp [Except.map] at hnet
    | ok l =>
      rw [hx] at hnet
      simp only [Except.map, Except.ok.injEq] at hnet
      subst hnet
      have hset' : fx.failSet VOD_CATEGORIES_CACHE_KEY = false := hset
      have hst1 : (fetchCatalog .vodCategories net fx now s emptyStore c).2.2.1
          = storeSet emptyStore VOD_CATEGORIES_CACHE_KEY
              (Blob.cat ⟨tagMovie l, now⟩) := by
        unfold fetchCatalog
        rw [getVodCategories_miss_ok hauth (by simpa [cacheHit] using hmiss) hx]
        simp [hset']
      rw [hst1]
      have hg1 : storeGet (storeSet emptyStore VOD_CATEGORIES_CACHE_KEY
          (Blob.cat ⟨tagMovie l, now⟩)) VOD_CATEGORIES_CACHE_KEY
          = some (Blob.cat ⟨tagMovie l, now⟩) := storeGet_set_self _ _ _
      have hg2 : storeGet (storeSet emptyStore VOD_CATEGORIES_CACHE_KEY
          (Blob.cat ⟨tagMovie l, now⟩)) VOD_CACHE_KEY = none := by
        rw [storeGet_set_other _ _ (by decide)]; rfl
      have hg3 : storeGet (storeSet emptyStore VOD_CATEGORIES_CACHE_KEY
          (Blob.cat ⟨tagMovie l, now⟩)) SERIES_CACHE_KEY = none := by
        rw [storeGet_set_other _ _ (by decide)]; rfl
      have hg4 : storeGet (storeSet emptyStore VOD_CATEGORIES_CACHE_KEY
          (Blob.cat ⟨tagMovie l, now⟩)) SERIES_CATEGORIES_CACHE_KEY = none := by
        rw [storeGet_set_other _ _ (by decide)]; rfl
      have hs2 : XtreamCodesApi.loadCaches fx'
          (storeSet emptyStore VOD_CATEGORIES_CACHE_KEY
            (Blob.cat ⟨tagMovie l, now⟩))
          { initState with credentials := some cr, authData := some au }
          = { initState with
              credentials := some cr, authData := some au,
              vodCategoriesCache := some ⟨tagMovie l, now⟩ } := by
        simp [XtreamCodesApi.loadCaches, XtreamCodesApi.loadCachesStep2,
          XtreamCodesApi.loadCachesStep3, XtreamCodesApi.loadCachesStep4,
          hget VOD_CACHE_KEY, hget VOD_CATEGORIES_CACHE_KEY,
          hget SERIES_CACHE_KEY, hget SERIES_CATEGORIES_CACHE_KEY,
          hg1, hg2, hg3, hg4, XtreamCodesApi.parseCatBlob]
      rw [hs2]
      refine ⟨by simp [cacheSlot, filterOf, CatalogType.isStream, tagMovie], ?_⟩
      have hauth2 : XtreamCodesApi.ensureAuthenticated
          { initState with
            credentials := some cr, authData := some au,
            vodCategoriesCache := some ⟨tagMovie l, now⟩ } = .ok () := by
        simp [XtreamCodesApi.ensureAuthenticated, initState]
      unfold fetchCatalog
      rw [getVodCategories_hit hauth2 rfl hv]
      simp [Except.map, tagMovie]
  case seriesCategories =>
    unfold netResult at hnet
    cases hx : net.seriesCategoriesResp with
    | error e => rw [hx] at hnet; simp [Except.map] at hnet
    | ok l =>
      rw [hx] at hnet
      simp only [Except.map, Except.ok.injEq] at hnet
      subst hnet
      have hset' : fx.failSet SERIES_CATEGORIES_CACHE_KEY = false := hset
      have hst1 : (fetchCatalog .seriesCategories net fx now s
            emptyStore c).2.2.1
          = storeSet emptyStore SERIES_CATEGORIES_CACHE_KEY
              (Blob.cat ⟨tagSeries l, now⟩) := by
        unfold fetchCatalog
        rw [getSeriesCategories_miss_ok hauth
          (by simpa [cacheHit] using hmiss) hx]
        simp [hset']
      rw [hst1]
      have hg1 : storeGet (storeSet emptyStore SERIES_CATEGORIES_CACHE_KEY
          (Blob.cat ⟨tagSeries l, now⟩)) SERIES_CATEGORIES_CACHE_KEY
          = some (Blob.cat ⟨tagSeries l, now⟩) := storeGet_set_self _ _ _
      have hg2 : storeGet (storeSet emptyStore SERIES_CATEGORIES_CACHE_KEY
          (Blob.cat ⟨tagSeries l, now⟩)) VOD_CACHE_KEY = none := by
        rw [storeGet_set_other _ _ (by decide)]; rfl
      have hg3 : storeGet (storeSet emptyStore SERIES_CATEGORIES_CACHE_KEY
          (Blob.cat ⟨tagSeries l, now⟩)) VOD_CATEGORIES_CACHE_KEY = none := by
        rw [storeGet_set_other _ _ (by decide)]; rfl
      have hg4 : storeGet (storeSet emptyStore SERIES_CATEGORIES_CACHE_KEY
          (Blob.cat ⟨tagSeries l, now⟩)) SERIES_CACHE_KEY = none := by
        rw [storeGet_set_other _ _ (by decide)]; rfl
      have hs2 : XtreamCodesApi.loadCaches fx'
          (storeSet emptyStore SERIES_CATEGORIES_CACHE_KEY
            (Blob.cat ⟨tagSeries l, now⟩))
          { initState with credentials := some cr, authData := some au }
          = { initState with
              credentials := some cr, authData := some au,
              seriesCategoriesCache := some ⟨tagSeries l, now⟩ } := by
        simp [XtreamCodesApi.loadCaches, XtreamCodesApi.loadCachesStep2,
          XtreamCodesApi.loadCachesStep3, XtreamCodesApi.loadCachesStep4,
          hget VOD_CACHE_KEY, hget VOD_CATEGORIES_CACHE_KEY,
          hget SERIES_CACHE_KEY, hget SERIES_CATEGORIES_CACHE_KEY,
          hg1, hg2, hg3, hg4, XtreamCodesApi.parseCatBlob]
      rw [hs2]
      refine ⟨by simp [cacheSlot, filterOf, CatalogType.isStream, tagSeries], ?_⟩
      have hauth2 : XtreamCodesApi.ensureAuthenticated
          { initState with
            credentials := some cr, authData := some au,
            seriesCategoriesCache := some ⟨tagSeries l, now⟩ } = .ok () := by
        simp [XtreamCodesApi.ensureAuthenticated, initState]
      unfold fetchCatalog
      rw [getSeriesCategories_hit hauth2 rfl hv]
      simp [Except.map, tagSeries]

theorem cache_restore_round_trip_witness :
    cacheSlot .vodStreams (XtreamCodesApi.loadCaches noFail
        (fetchCatalog .vodStreams sampleNet noFail 0 authedState emptyStore
          (some "5")).2.2.1
        { initState with credentials := some mCred, authData := some mAuth })
      = some (.movies [m1], 0, filterOf .vodStreams (some "5")) ∧
    fetchCatalog .vodStreams sampleNet noFail 5
      (XtreamCodesApi.loadCaches noFail
        (fetchCatalog .vodStreams sampleNet noFail 0 authedState emptyStore
          (some "5")).2.2.1
        { initState with credentials := some mCred, authData := some mAuth })
      (fetchCatalog .vodStreams sampleNet noFail 0 authedState emptyStore
        (some "5")).2.2.1
      (filterOf .vodStreams (some "5"))
      = (.ok (.movies [m1]),
         XtreamCodesApi.loadCaches noFail
          (fetchCatalog .vodStreams sampleNet noFail 0 authedState emptyStore
            (some "5")).2.2.1
          { initState with credentials := some mCred, authData := some mAuth },
         (fetchCatalog .vodStreams sampleNet noFail 0 authedState emptyStore
           (some "5")).2.2.1, []) :=
  cache_restore_round_trip .vodStreams sampleNet sampleNet noFail noFail noFail
    0 5 authedState (some "5") (.movies [m1]) mCred mAuth rfl rfl rfl rfl
    (fun _ => rfl) (by decide)


/-- Claim C9: with a functioning store, `logout()` resolves, clears the
credentials, auth data and all four in-memory entries, removes the auth
key and the four cache keys from the store, and any catalog fetch under a
subsequently re-established session finds no entry and issues the network
request. -/
theorem logout_clears_everything
    (fx : StoreFx) (s : ApiState) (st : Store)
    (hrm : ∀ k, fx.failRemove k = false) :
    (XtreamCodesApi.logout fx s st).1 = .ok () ∧
    (XtreamCodesApi.logout fx s st).2.1 = initState ∧
    storeGet (XtreamCodesApi.logout fx s st).2.2 AUTH_STORAGE_KEY = none ∧
    storeGet (XtreamCodesApi.logout fx s st).2.2 VOD_CACHE_KEY = none ∧
    storeGet (XtreamCodesApi.logout fx s st).2.2 VOD_CATEGORIES_CACHE_KEY
      = none ∧
    storeGet (XtreamCodesApi.logout fx s st).2.2 SERIES_CACHE_KEY = none ∧
    storeGet (XtreamCodesApi.logout fx s st).2.2 SERIES_CATEGORIES_CACHE_KEY
      = none ∧
    (∀ (t : CatalogType) (net2 : Net) (fx2 : StoreFx) (now2 : Nat)
       (st2 : Store) (c : Option String) (cr : XtreamCredentials)
       (au : AuthResponse),
      (fetchCatalog t net2 fx2 now2
        { (XtreamCodesApi.logout fx s st).2.1 with
          credentials := some cr, authData := some au } st2 c).2.2.2
        = [netCallOf t c]) := by
  have hkeys : ∀ k, k ∈ [AUTH_STORAGE_KEY, VOD_CACHE_KEY,
      VOD_CATEGORIES_CACHE_KEY, SERIES_CACHE_KEY,
      SERIES_CATEGORIES_CACHE_KEY] →
      storeGet ([AUTH_STORAGE_KEY, VOD_CACHE_KEY, VOD_CATEGORIES_CACHE_KEY,
        SERIES_CACHE_KEY, SERIES_CATEGORIES_CACHE_KEY].foldl storeRemove st) k
        = none := fun k hk => storeGet_foldl_remove_mem _ st k hk
  have hL : XtreamCodesApi.logout fx s st
      = (.ok (), initState,
         match (XtreamCodesApi.getUserInfo s).map (fun u => u.1) with
         | none => [AUTH_STORAGE_KEY, VOD_CACHE_KEY, VOD_CATEGORIES_CACHE_KEY,
             SERIES_CACHE_KEY, SERIES_CATEGORIES_CACHE_KEY].foldl
             storeRemove st
         | some u => [XtreamCodesApi.favoritesKey u,
             XtreamCodesApi.pcEnabledKey u, XtreamCodesApi.pcPinKey u,
             XtreamCodesApi.pcCategoriesKey u].foldl storeRemove
             ([AUTH_STORAGE_KEY, VOD_CACHE_KEY, VOD_CATEGORIES_CACHE_KEY,
               SERIES_CACHE_KEY, SERIES_CATEGORIES_CACHE_KEY].foldl
               storeRemove st)) := by
    unfold XtreamCodesApi.logout
    rw [removeSeq_noFail hrm]
    cases hU : (XtreamCodesApi.getUserInfo s).map (fun u => u.1) with
    | none => simp [removeSeq_noFail hrm, initState]
    | some u => simp [removeSeq_noFail hrm, initState]
  rw [hL]
  have hstore : ∀ k, k ∈ [AUTH_STORAGE_KEY, VOD_CACHE_KEY,
      VOD_CATEGORIES_CACHE_KEY, SERIES_CACHE_KEY,
      SERIES_CATEGORIES_CACHE_KEY] →
      storeGet (match (XtreamCodesApi.getUserInfo s).map (fun u => u.1) with
         | none => [AUTH_STORAGE_KEY, VOD_CACHE_KEY, VOD_CATEGORIES_CACHE_KEY,
             SERIES_CACHE_KEY, SERIES_CATEGORIES_CACHE_KEY].foldl
             storeRemove st
         | some u => [XtreamCodesApi.favoritesKey u,
             XtreamCodesApi.pcEnabledKey u, XtreamCodesApi.pcPinKey u,
             XtreamCodesApi.pcCategoriesKey u].foldl storeRemove
             ([AUTH_STORAGE_KEY, VOD_CACHE_KEY, VOD_CATEGORIES_CACHE_KEY,
               SERIES_CACHE_KEY, SERIES_CATEGORIES_CACHE_KEY].foldl
               storeRemove st)) k = none := by
    intro k hk
    cases (XtreamCodesApi.getUserInfo s).map (fun u => u.1) with
    | none => exact hkeys k hk
    | some u => exact storeGet_foldl_remove_none _ _ k (hkeys k hk)
  refine ⟨rfl, rfl, hstore _ (by simp), hstore _ (by simp), hstore _ (by simp),
    hstore _ (by simp), hstore _ (by simp), ?_⟩
  intro t net2 fx2 now2 st2 c cr au
  refine fetchCatalog_miss_calls t net2 fx2 now2 _ st2 c rfl ?_
  cases t <;> rfl

theorem logout_clears_everything_witness :
    (XtreamCodesApi.logout noFail warmState storeFull).1 = .ok () ∧
    (XtreamCodesApi.logout noFail warmState storeFull).2.1 = initState ∧
    storeGet (XtreamCodesApi.logout noFail warmState storeFull).2.2
      VOD_CACHE_KEY = none ∧
    (fetchCatalog .vodStreams sampleNet noFail 3
      { (XtreamCodesApi.logout noFail warmState storeFull).2.1 with
        credentials := some mCred, authData := some mAuth }
      emptyStore (some "5")).2.2.2 = [.vodStreams (some "5")] :=
  ⟨(logout_clears_everything noFail warmState storeFull (fun _ => rfl)).1,
   (logout_clears_everything noFail warmState storeFull (fun _ => rfl)).2.1,
   (logout_clears_everything noFail warmState storeFull (fun _ => rfl)).2.2.2.1,
   (logout_clears_everything noFail warmState storeFull
      (fun _ => rfl)).2.2.2.2.2.2.2 .vodStreams sampleNet noFail 3 emptyStore
      (some "5") mCred mAuth⟩
